import Mathlib

/-!
# User identity and session subsystem

A shallow embedding of the credential service of `solid-software-task`
(`internal/service/user.go`, `internal/storage/user.go`, `pkg/password/bcrypt.go`,
`cmd/main.go`).

Stateful code is written in explicit state-passing style over a `World`: the
account store, the append-only log, the trace of collaborator calls and the
number of clock readings taken so far.  A Go result `(value, error)` that is
always either `(nil, err)` or `(value, nil)` with a non-nil value is an `Except`;
the results of the password hasher, of `LoginUser` (whose output is a struct,
not a pointer) and those whose pointer may be nil without an error are kept as
pairs.
-/

namespace SolidSoftware

/-! ## Errors -/

/-- Go `error` values.  `expected addr msg code` is the value built by
`errs.New(msg, code)`; `addr` is the identity of the allocated error, so that two
package-level variables with the same message and code stay distinct under `==`.
`wrapped c e` is `fmt.Errorf(c + ": %w", e)`.  `external t` is an error produced
by a library (database driver, bcrypt, token codec) whose text is `t`. -/
inductive Err where
  | expected (addr : Nat) (Message : String) (Code : String)
  | wrapped (context : String) (inner : Err)
  | external (text : String)
  deriving DecidableEq, Repr

/-- The `Error()` method. -/
def Err.Error : Err → String
  | .expected _ m _ => m
  | .wrapped c e => c ++ ": " ++ e.Error
  | .external t => t

/-- The chain walk of `errors.Is(err, target)` for a non-nil `err`. -/
def Err.Is : Err → Err → Bool
  | .wrapped c e, target => (Err.wrapped c e == target) || e.Is target
  | e, target => e == target

/-- The function `errors.Is(err, target)`, `err` possibly nil. -/
def errors_Is (err : Option Err) (target : Err) : Bool :=
  match err with
  | none => false
  | some e => e.Is target

def userNotFoundErrCode : String := "user_not_found"
def userAlreadyExistsErrCode : String := "user_already_exists"
def invalidPasswordErrCode : String := "invalid_password"
def invalidTokenErrCode : String := "invalid_token"
def tokenExpiredErrCode : String := "token_expired"

def ErrRegisterUserUserAlreadyExists : Err := .expected 0 "user already exists" userAlreadyExistsErrCode
def ErrLoginUserUserNotFound : Err := .expected 1 "user not found" userNotFoundErrCode
def ErrLoginUserInvalidPassword : Err := .expected 2 "invalid password" invalidPasswordErrCode
def ErrGetUserUserNotFound : Err := .expected 3 "user not found" userNotFoundErrCode
def ErrUpdateUserUserNotFound : Err := .expected 4 "user not found" userNotFoundErrCode
def ErrDeleteUserUserNotFound : Err := .expected 5 "user not found" userNotFoundErrCode
def ErrVerifyUserTokenInvalidToken : Err := .expected 6 "invalid authenticate token." invalidTokenErrCode
def ErrVerifyUserTokenUserNotFound : Err := .expected 7 "user not found" userNotFoundErrCode
def ErrRefreshUserTokenInvalidToken : Err := .expected 8 "invalid refresh token" invalidTokenErrCode
def ErrRefreshUserTokenUserNotFound : Err := .expected 9 "user not found" userNotFoundErrCode

/-- The code carried by an error built with `errs.New`, if it is one. -/
def Err.code? : Err → Option String
  | .expected _ _ c => some c
  | _ => none

/-! ## Entities, options and outputs -/

/-- The record `entity.User`, with the fields the service and the storage use. -/
structure User where
  ID : String
  Name : String
  Surname : String
  EmailAddress : String
  Password : String
  deriving DecidableEq, Repr

structure RegisterUserOptions where
  Name : String
  Surname : String
  Phone : String
  EmailAddress : String
  Password : String
  deriving DecidableEq, Repr

structure LoginUserOptions where
  EmailAddress : String
  Password : String
  deriving DecidableEq, Repr

structure LoginUserOutput where
  AccessToken : String
  RefreshToken : String
  UserID : String
  deriving DecidableEq, Repr

structure GetUserOptions where
  ID : String
  EmailAddress : String
  deriving DecidableEq, Repr

structure UserTokenOutput where
  AccessToken : String
  RefreshToken : String
  deriving DecidableEq, Repr

/-- The filter of a lookup; a nil pointer is `none`. -/
structure GetUserFilter where
  ID : Option String
  EmailAddress : Option String
  deriving DecidableEq, Repr

structure CompareHashAndPasswordOptions where
  Hashed : String
  Password : String
  deriving DecidableEq, Repr

/-! ## Configuration -/

structure HTTPConfig where
  Port : String
  deriving DecidableEq, Repr

structure LogConfig where
  Level : String
  deriving DecidableEq, Repr

structure PostgreSQLConfig where
  User : String
  Password : String
  Host : String
  Database : String
  deriving DecidableEq, Repr

/-- The section `cfg.Auth`; lifetimes are `time.Duration` values in nanoseconds. -/
structure AuthConfig where
  TokenSecretKey : String
  TokenIssuer : String
  AccessTokenLifetime : Int
  RefreshTokenLifetime : Int
  deriving DecidableEq, Repr

/-- The value `config.Config`, with the sections read by `app.Run` and the service. -/
structure Config where
  HTTP : HTTPConfig
  Log : LogConfig
  PostgreSQL : PostgreSQLConfig
  Auth : AuthConfig
  deriving DecidableEq, Repr

/-! ## Token claims -/

structure UserDataClaims where
  UserID : String
  deriving DecidableEq, Repr

/-- The claims `token.UniversalClaims`; times are nanoseconds since the epoch. -/
structure UniversalClaims where
  Iss : String
  ExpAt : Int
  NbfAt : Int
  IssAt : Int
  Payload : UserDataClaims
  deriving DecidableEq, Repr

/-- The untyped payload returned by `claims.GetPayload()`: a decoded JSON object. -/
abbrev RawPayload := List (String × String)

/-! ## Structured logging -/

inductive Level where
  | Debug
  | Info
  | Error
  | Fatal
  deriving DecidableEq, Repr

/-- A value handed to the logger as the value of a key. -/
inductive LogValue where
  | err (e : Err)
  | str (s : String)
  | registerOpts (o : RegisterUserOptions)
  | loginOpts (o : LoginUserOptions)
  | user (u : Option User)
  | tokens (t : UserTokenOutput)
  | config (c : Config)
  deriving DecidableEq, Repr

/-- One entry of the log: level, logger name path, message, and the key/value
fields (those attached to the logger with `With`, then those of the call). -/
structure LogEntry where
  level : Level
  name : List String
  msg : String
  fields : List (String × LogValue)
  deriving DecidableEq, Repr

/-- A `logging.Logger` value: its name path and the fields attached with `With`. -/
structure Logger where
  name : List String
  fields : List (String × LogValue)
  deriving DecidableEq, Repr

def Logger.Named (l : Logger) (n : String) : Logger :=
  { l with name := l.name ++ [n] }

def Logger.WithContext (l : Logger) : Logger := l

def Logger.With (l : Logger) (key : String) (value : LogValue) : Logger :=
  { l with fields := l.fields ++ [(key, value)] }

/-- The entry written by `logger.<Level>(msg, kv...)`. -/
def Logger.entry (l : Logger) (lvl : Level) (msg : String) (kv : List (String × LogValue)) : LogEntry :=
  { level := lvl, name := l.name, msg := msg, fields := l.fields ++ kv }

/-- The logger `logging.NewZapLogger(name)`. -/
def NewZapLogger (name : String) : Logger := { name := [name], fields := [] }

def User.strings (u : User) : List String :=
  [u.ID, u.Name, u.Surname, u.EmailAddress, u.Password]

def Config.strings (c : Config) : List String :=
  [c.HTTP.Port, c.Log.Level, c.PostgreSQL.User, c.PostgreSQL.Password, c.PostgreSQL.Host,
    c.PostgreSQL.Database, c.Auth.TokenSecretKey, c.Auth.TokenIssuer]

/-- The strings a logged value carries: the string fields of a struct, the text
of an error. -/
def LogValue.strings : LogValue → List String
  | .err e => [e.Error]
  | .str s => [s]
  | .registerOpts o => [o.Name, o.Surname, o.Phone, o.EmailAddress, o.Password]
  | .loginOpts o => [o.EmailAddress, o.Password]
  | .user none => []
  | .user (some u) => u.strings
  | .tokens t => [t.AccessToken, t.RefreshToken]
  | .config c => c.strings

/-- The strings carried by the fields of an entry. -/
def LogEntry.strings (e : LogEntry) : List String :=
  (e.fields.map (fun kv => kv.2.strings)).flatten

/-- An entry contains `s` when one of its field values carries `s`. -/
def LogEntry.contains (e : LogEntry) (s : String) : Prop := s ∈ e.strings

instance (e : LogEntry) (s : String) : Decidable (e.contains s) := by
  unfold LogEntry.contains; infer_instance

/-! ## Collaborators -/

/-- The interface `service.UserStorage` over a store state `σ`.  `GetUser` is a
query: it reads the state and returns no new one. -/
structure UserStorage (σ : Type) where
  GetUser : σ → GetUserFilter → Except Err (Option User)
  CreateUser : σ → User → Except Err (Option User) × σ
  UpdateUser : σ → String → User → Except Err (Option User) × σ
  DeleteUser : σ → String → Option Err × σ

/-- The interface `password.Hasher`; results are the Go pairs. -/
structure Hasher where
  GenerateHashFromPassword : String → String × Option Err
  CompareHashAndPassword : CompareHashAndPasswordOptions → Bool × Option Err

/-- A call made to a collaborator, or to `GenerateUserToken`. -/
inductive Call where
  | GetUser (filter : GetUserFilter)
  | CreateUser (user : User)
  | UpdateUser (id : String) (user : User)
  | DeleteUser (id : String)
  | GenerateHashFromPassword (password : String)
  | CompareHashAndPassword (opts : CompareHashAndPasswordOptions)
  | VerifyJWTToken (token : String) (secret : String)
  | Decode (payload : RawPayload)
  | SignJWTToken (claims : UniversalClaims) (secret : String)
  | Now
  | GenerateUserToken (user : User)
  deriving DecidableEq, Repr

/-- The state a service operation runs in. -/
structure World (σ : Type) where
  store : σ
  log : List LogEntry
  calls : List Call
  clock : Nat

def World.emit {σ : Type} (w : World σ) (e : LogEntry) : World σ :=
  { w with log := w.log ++ [e] }

def World.call {σ : Type} (w : World σ) (c : Call) : World σ :=
  { w with calls := w.calls ++ [c] }

def World.setStore {σ : Type} (w : World σ) (s : σ) : World σ :=
  { w with store := s }

/-- The struct `service.Options`, together with the package-level functions the
service calls: the token codec (`token.SignJWTToken`, `token.VerifyJWTToken`
followed by `GetPayload`), `mapstructure.Decode` into `UserDataClaims`, the
clock (`Now n` is the reading of the `n`-th call of `time.Now`), and
`errs.IsExpected`. -/
structure Options (σ : Type) where
  Storages : UserStorage σ
  Config : Config
  Logger : Logger
  PasswordHasher : Hasher
  SignJWTToken : UniversalClaims → String → Except Err String
  VerifyJWTToken : String → String → Except Err RawPayload
  Decode : RawPayload → Except Err UserDataClaims
  Now : Nat → Int
  IsExpected : Err → Bool

/-- The struct `userService` (with its embedded `serviceContext`). -/
structure userService (σ : Type) where
  storages : UserStorage σ
  cfg : Config
  logger : Logger
  passwordHasher : Hasher
  SignJWTToken : UniversalClaims → String → Except Err String
  VerifyJWTToken : String → String → Except Err RawPayload
  Decode : RawPayload → Except Err UserDataClaims
  Now : Nat → Int
  IsExpected : Err → Bool

def NewUserService {σ : Type} (options : Options σ) : userService σ :=
  { storages := options.Storages
    cfg := options.Config
    logger := options.Logger.Named "userService"
    passwordHasher := options.PasswordHasher
    SignJWTToken := options.SignJWTToken
    VerifyJWTToken := options.VerifyJWTToken
    Decode := options.Decode
    Now := options.Now
    IsExpected := options.IsExpected }

/-! ## The service -/

def RegisterUser {σ : Type} (s : userService σ) (w : World σ) (opts : RegisterUserOptions) :
    Option Err × World σ :=
  let logger := ((s.logger.Named "RegisterUser").WithContext).With "opts" (.registerOpts opts)
  let filter : GetUserFilter := { ID := none, EmailAddress := some opts.EmailAddress }
  let w := w.call (.GetUser filter)
  match s.storages.GetUser w.store filter with
  | .error err =>
    (some (.wrapped "failed to get user through storage" err),
      w.emit (logger.entry .Error "failed to get user through storage" [("err", .err err)]))
  | .ok (some _) =>
    (some ErrRegisterUserUserAlreadyExists,
      w.emit (logger.entry .Info "user with such email already exists" []))
  | .ok none =>
    let w := w.call (.GenerateHashFromPassword opts.Password)
    match s.passwordHasher.GenerateHashFromPassword opts.Password with
    | (_, some err) =>
      (some (.wrapped "failed to hash password" err),
        w.emit (logger.entry .Error "failed to hash password" [("err", .err err)]))
    | (hashedPassword, none) =>
      let newUser : User :=
        { ID := "", Name := opts.Name, Surname := opts.Surname,
          EmailAddress := opts.EmailAddress, Password := hashedPassword }
      let w := w.call (.CreateUser newUser)
      match s.storages.CreateUser w.store newUser with
      | (.error err, store) =>
        (some (.wrapped "failed to create user in storage" err),
          (w.setStore store).emit
            (logger.entry .Error "failed to create user in storage" [("err", .err err)]))
      | (.ok createdUser, store) =>
        let w := (w.setStore store).emit
          (logger.entry .Debug "created user" [("createdUser", .user createdUser)])
        (none, w.emit (logger.entry .Info "registered user succesfully" []))

/-- The method `GenerateUserToken`; `user` is the non-nil account of the caller. -/
def GenerateUserToken {σ : Type} (ts : userService σ) (w : World σ) (user : User) :
    Except Err UserTokenOutput × World σ :=
  let w := w.call (.GenerateUserToken user)
  let logger := ((ts.logger.Named "GenerateUserToken").WithContext).With "user" (.user (some user))
  -- Create new Access token
  let t := ts.Now w.clock
  let w := { w.call .Now with clock := w.clock + 1 }
  let accessClaims : UniversalClaims :=
    { Iss := ts.cfg.Auth.TokenIssuer
      ExpAt := t + ts.cfg.Auth.AccessTokenLifetime
      NbfAt := t
      IssAt := t
      Payload := { UserID := user.ID } }
  let w := w.call (.SignJWTToken accessClaims ts.cfg.Auth.TokenSecretKey)
  match ts.SignJWTToken accessClaims ts.cfg.Auth.TokenSecretKey with
  | .error err =>
    (.error (.wrapped "failed to generate access token" err),
      w.emit (logger.entry .Error "failed to generate access token" [("err", .err err)]))
  | .ok accessToken =>
    let w := w.emit (logger.entry .Debug "access token generated" [("accessToken", .str accessToken)])
    -- Create new Refresh token
    let t := ts.Now w.clock
    let w := { w.call .Now with clock := w.clock + 1 }
    let refreshClaims : UniversalClaims :=
      { Iss := ts.cfg.Auth.TokenIssuer
        ExpAt := t + ts.cfg.Auth.RefreshTokenLifetime
        NbfAt := t
        IssAt := t
        Payload := { UserID := user.ID } }
    let w := w.call (.SignJWTToken refreshClaims ts.cfg.Auth.TokenSecretKey)
    match ts.SignJWTToken refreshClaims ts.cfg.Auth.TokenSecretKey with
    | .error err =>
      (.error (.wrapped "failed to generate refresh token" err),
        w.emit (logger.entry .Error "failed to generate refresh token" [("err", .err err)]))
    | .ok refreshToken =>
      (.ok { AccessToken := accessToken, RefreshToken := refreshToken },
        w.emit (logger.entry .Info "refresh token generated" [("refreshToken", .str refreshToken)]))

def LoginUser {σ : Type} (s : userService σ) (w : World σ) (opts : LoginUserOptions) :
    (LoginUserOutput × Option Err) × World σ :=
  let logger := ((s.logger.Named "LoginUser").WithContext).With "opts" (.loginOpts opts)
  let zero : LoginUserOutput := { AccessToken := "", RefreshToken := "", UserID := "" }
  let filter : GetUserFilter := { ID := none, EmailAddress := some opts.EmailAddress }
  let w := w.call (.GetUser filter)
  match s.storages.GetUser w.store filter with
  | .error err =>
    ((zero, some (.wrapped "failed to get user through storage" err)),
      w.emit (logger.entry .Error "failed to get user through storage" [("err", .err err)]))
  | .ok none =>
    ((zero, some ErrLoginUserUserNotFound), w.emit (logger.entry .Info "user not found" []))
  | .ok (some user) =>
    let w := w.emit (logger.entry .Debug "got user" [("user", .user (some user))])
    -- Check if password is correct
    let cmp : CompareHashAndPasswordOptions := { Hashed := user.Password, Password := opts.Password }
    let w := w.call (.CompareHashAndPassword cmp)
    match s.passwordHasher.CompareHashAndPassword cmp with
    | (_, some err) =>
      ((zero, some (.wrapped "failed to check password correctness" err)),
        w.emit (logger.entry .Error "failed to check password correctness" [("err", .err err)]))
    | (false, none) =>
      ((zero, some ErrLoginUserInvalidPassword), w.emit (logger.entry .Info "invalid password" []))
    | (true, none) =>
      -- Generate a pair of tokens
      match GenerateUserToken s w user with
      | (.error err, w) =>
        ((zero, some (.wrapped "failed to generate tokens" err)),
          w.emit (logger.entry .Error "failed to generate tokens" [("err", .err err)]))
      | (.ok tokens, w) =>
        (({ AccessToken := tokens.AccessToken
            RefreshToken := tokens.RefreshToken
            UserID := user.ID }, none),
          w.emit (logger.entry .Info "user logged in" [("tokens", .tokens tokens)]))

def GetUser {σ : Type} (s : userService σ) (w : World σ) (opt : GetUserOptions) :
    (Option User × Option Err) × World σ :=
  let logger := (s.logger.Named "GetUser").WithContext
  let filter : GetUserFilter := { ID := some opt.ID, EmailAddress := some opt.EmailAddress }
  let w := w.call (.GetUser filter)
  match s.storages.GetUser w.store filter with
  | .error err =>
    ((none, some (.wrapped "failed to get user" err)),
      w.emit (logger.entry .Error "failed to get user" [("err", .err err)]))
  | .ok none =>
    ((none, some ErrGetUserUserNotFound), w.emit (logger.entry .Info "user not found" []))
  | .ok (some user) =>
    let logger := logger.With "user" (.user (some user))
    let w := w.emit (logger.entry .Debug "got user" [])
    ((some user, none), w.emit (logger.entry .Info "successfully got user" []))

/-- The method `UpdateUser`; `newUser` is the non-nil record bound by the caller. -/
def UpdateUser {σ : Type} (s : userService σ) (w : World σ) (newUser : User) :
    (Option User × Option Err) × World σ :=
  let logger := ((s.logger.Named "UpdateUser").With "newUser" (.user (some newUser))).WithContext
  let filter : GetUserFilter := { ID := some newUser.ID, EmailAddress := none }
  let w := w.call (.GetUser filter)
  match s.storages.GetUser w.store filter with
  | .error err =>
    ((none, some (.wrapped "failed to get user" err)),
      w.emit (logger.entry .Error "failed to get user" [("err", .err err)]))
  | .ok none =>
    ((none, some ErrUpdateUserUserNotFound), w.emit (logger.entry .Info "user not found" []))
  | .ok (some user) =>
    let w := w.emit (logger.entry .Debug "got user" [])
    let w := w.call (.UpdateUser user.ID newUser)
    match s.storages.UpdateUser w.store user.ID newUser with
    | (.error err, store) =>
      ((none, some (.wrapped "failed to update user" err)),
        (w.setStore store).emit (logger.entry .Error "failed to update user" [("err", .err err)]))
    | (.ok updatedUser, store) =>
      let logger := logger.With "updatedUser" (.user updatedUser)
      ((updatedUser, none),
        (w.setStore store).emit (logger.entry .Info "successfully updated user" []))

def DeleteUser {σ : Type} (s : userService σ) (w : World σ) (id : String) :
    Option Err × World σ :=
  let logger := ((s.logger.Named "DeleteUser").With "id" (.str id)).WithContext
  let filter : GetUserFilter := { ID := some id, EmailAddress := none }
  let w := w.call (.GetUser filter)
  match s.storages.GetUser w.store filter with
  | .error err =>
    (some (.wrapped "failed to get user" err),
      w.emit (logger.entry .Error "failed to get user" [("err", .err err)]))
  | .ok none =>
    (some ErrDeleteUserUserNotFound, w.emit (logger.entry .Info "user not found" []))
  | .ok (some _) =>
    let w := w.emit (logger.entry .Debug "got user" [])
    let w := w.call (.DeleteUser id)
    match s.storages.DeleteUser w.store id with
    | (some err, store) =>
      (some (.wrapped "failed to delete user" err),
        (w.setStore store).emit (logger.entry .Error "failed to delete user" [("err", .err err)]))
    | (none, store) =>
      (none, (w.setStore store).emit (logger.entry .Info "successfully deleted user" []))

def VerifyUserToken {σ : Type} (s : userService σ) (w : World σ) (tokenStr : String) :
    Except Err User × World σ :=
  let logger := ((s.logger.Named "VerifyUserToken").WithContext).With "token" (.str tokenStr)
  let w := w.call (.VerifyJWTToken tokenStr s.cfg.Auth.TokenSecretKey)
  match s.VerifyJWTToken tokenStr s.cfg.Auth.TokenSecretKey with
  | .error err =>
    (.error ErrVerifyUserTokenInvalidToken,
      w.emit (logger.entry .Info "invalid token" [("err", .err err)]))
  | .ok payload =>
    let w := w.call (.Decode payload)
    match s.Decode payload with
    | .error _ => (.error ErrVerifyUserTokenInvalidToken, w)
    | .ok claimsData =>
      -- Get user from storage by token claims.UserID
      let filter : GetUserFilter := { ID := some claimsData.UserID, EmailAddress := none }
      let w := w.call (.GetUser filter)
      match s.storages.GetUser w.store filter with
      | .error err =>
        (.error (.wrapped "failed to get user" err),
          w.emit (logger.entry .Error "failed to get user" [("err", .err err)]))
      | .ok none =>
        (.error ErrVerifyUserTokenUserNotFound, w.emit (logger.entry .Info "user not found" []))
      | .ok (some user) =>
        (.ok user, w.emit (logger.entry .Info "verified token" [("user", .user (some user))]))

def RefreshUserToken {σ : Type} (s : userService σ) (w : World σ) (refreshToken : String) :
    Except Err UserTokenOutput × World σ :=
  let logger := ((s.logger.Named "RefreshUserToken").WithContext).With "refreshToken" (.str refreshToken)
  match VerifyUserToken s w refreshToken with
  | (.error err, w) =>
    let w := if s.IsExpected err then w.emit (logger.entry .Info err.Error []) else w
    if err = ErrVerifyUserTokenInvalidToken then
      (.error ErrRefreshUserTokenInvalidToken, w)
    else if err = ErrVerifyUserTokenUserNotFound then
      (.error ErrRefreshUserTokenUserNotFound, w)
    else
      (.error (.wrapped "failed to verify token" err),
        w.emit (logger.entry .Error "failed to verify token" [("err", .err err)]))
  | (.ok user, w) =>
    let w := w.emit (logger.entry .Debug "got user" [("user", .user (some user))])
    match GenerateUserToken s w user with
    | (.error err, w) =>
      (.error (.wrapped "failed to generate token" err),
        w.emit (logger.entry .Error "failed to generate token" [("err", .err err)]))
    | (.ok tokens, w) =>
      (.ok tokens,
        w.emit (logger.entry .Info "successfully refreshed tokens" [("tokens", .tokens tokens)]))

/-! ## The storage over the database handle (`internal/storage/user.go`) -/

/-- The operations of the `gorm` handle that the storage uses, over a database
state `σ`.  `First conds` is `Where(conds...).First(&user)`; `Create` returns the
record as the call leaves it (generated columns filled in). -/
structure GormDB (σ : Type) where
  First : σ → List User → Except Err User
  Create : σ → User → Except Err User × σ
  Updates : σ → String → User → Option Err × σ
  Delete : σ → String → Option Err × σ

/-- The sentinel `gorm.ErrRecordNotFound`. -/
def ErrRecordNotFound : Err := .external "record not found"

/-- The record `entity.User{}` with every field at its zero value. -/
def User.zero : User := { ID := "", Name := "", Surname := "", EmailAddress := "", Password := "" }

def userStorage.GetUser {σ : Type} (r : GormDB σ) (db : σ) (filter : GetUserFilter) :
    Except Err (Option User) :=
  let stmt : List User := []
  let stmt := match filter.EmailAddress with
    | some e => stmt ++ [{ User.zero with EmailAddress := e }]
    | none => stmt
  let stmt := match filter.ID with
    | some i => stmt ++ [{ User.zero with ID := i }]
    | none => stmt
  match r.First db stmt with
  | .error err =>
    if err.Is ErrRecordNotFound then .ok none
    else .error (.wrapped "failed to get user" err)
  | .ok user => .ok (some user)

def userStorage.CreateUser {σ : Type} (r : GormDB σ) (db : σ) (user : User) :
    Except Err (Option User) × σ :=
  match r.Create db user with
  | (.error err, db) => (.error (.wrapped "failed to create user" err), db)
  | (.ok user, db) => (.ok (some user), db)

def userStorage.UpdateUser {σ : Type} (r : GormDB σ) (db : σ) (id : String) (user : User) :
    Except Err (Option User) × σ :=
  match r.Updates db id user with
  | (some err, db) => (.error (.wrapped "failed to update user" err), db)
  | (none, db) => (.ok (some user), db)

def userStorage.DeleteUser {σ : Type} (r : GormDB σ) (db : σ) (id : String) : Option Err × σ :=
  match r.Delete db id with
  | (some err, db) => (some (.wrapped "failed to delete user" err), db)
  | (none, db) => (none, db)

/-- The constructor `NewUserStorage`. -/
def NewUserStorage {σ : Type} (postgresql : GormDB σ) : UserStorage σ :=
  { GetUser := userStorage.GetUser postgresql
    CreateUser := userStorage.CreateUser postgresql
    UpdateUser := userStorage.UpdateUser postgresql
    DeleteUser := userStorage.DeleteUser postgresql }

/-! ## The bcrypt hasher (`pkg/password/bcrypt.go`) -/

/-- The two functions of `golang.org/x/crypto/bcrypt` that the hasher calls, with
the random source the salt is drawn from held fixed. -/
structure BcryptLib where
  GenerateFromPassword : String → Nat → Except Err String
  CompareHashAndPassword : String → String → Option Err

/-- The sentinel `bcrypt.ErrMismatchedHashAndPassword`. -/
def ErrMismatchedHashAndPassword : Err :=
  .external "crypto/bcrypt: hashedPassword is not the hash of the given password"

def bcrypt.GenerateHashFromPassword (bcryptLib : BcryptLib) (password : String) :
    String × Option Err :=
  match bcryptLib.GenerateFromPassword password 14 with
  | .error err => ("", some (.wrapped "failed to hash password" err))
  | .ok hashedPassword => (hashedPassword, none)

def bcrypt.CompareHashAndPassword (bcryptLib : BcryptLib) (opts : CompareHashAndPasswordOptions) :
    Bool × Option Err :=
  let err := bcryptLib.CompareHashAndPassword opts.Hashed opts.Password
  if errors_Is err ErrMismatchedHashAndPassword then (false, none)
  else
    match err with
    | some err => (false, some (.wrapped "failed to check password correctness" err))
    | none => (true, none)

/-- The constructor `NewBcrypt`. -/
def NewBcrypt (bcryptLib : BcryptLib) : Hasher :=
  { GenerateHashFromPassword := bcrypt.GenerateHashFromPassword bcryptLib
    CompareHashAndPassword := bcrypt.CompareHashAndPassword bcryptLib }

/-! ## Startup (`cmd/main.go`) -/

/-- The log written by `main` before it hands over to `app.Run`: `readEnv` is the
result of `cleanenv.ReadEnv(&cfg)`. -/
def main (readEnv : Except Err Config) : List LogEntry :=
  let logger := NewZapLogger "main"
  match readEnv with
  | .error err => [logger.entry .Fatal "failed to read env" [("err", .err err)]]
  | .ok cfg => [logger.entry .Info "read config" [("config", .config cfg)]]

/-! ## Fixtures: a list-backed database, a digest primitive and a token codec -/

/-- A struct condition of `Where`: every non-zero field of `c` must agree. -/
def User.matches (c u : User) : Bool :=
  (c.ID == "" || c.ID == u.ID) && (c.Name == "" || c.Name == u.Name) &&
  (c.Surname == "" || c.Surname == u.Surname) &&
  (c.EmailAddress == "" || c.EmailAddress == u.EmailAddress) &&
  (c.Password == "" || c.Password == u.Password)

/-- The driver error of a violated unique index (SQLSTATE 23505). -/
def ErrUniqueViolation : Err :=
  .external "ERROR: duplicate key value violates unique constraint (SQLSTATE 23505)"

/-- A database holding its rows in a list, with a unique index on the email
address. -/
def listDB : GormDB (List User) :=
  { First := fun db conds =>
      match db.find? (fun u => conds.all (fun c => c.matches u)) with
      | some u => .ok u
      | none => .error ErrRecordNotFound
    Create := fun db u =>
      if db.any (fun v => v.EmailAddress == u.EmailAddress) then (.error ErrUniqueViolation, db)
      else
        let row := { u with ID := toString (db.length + 1) }
        (.ok row, db ++ [row])
    Updates := fun db id u =>
      (none, db.map (fun v => if v.ID == id then
        { ID := if u.ID == "" then v.ID else u.ID
          Name := if u.Name == "" then v.Name else u.Name
          Surname := if u.Surname == "" then v.Surname else u.Surname
          EmailAddress := if u.EmailAddress == "" then v.EmailAddress else u.EmailAddress
          Password := if u.Password == "" then v.Password else u.Password } else v))
    Delete := fun db id => (none, db.filter (fun v => v.ID != id)) }

/-- The database as one registration sees it when another registration of the
same address commits between its lookup and its insert: the lookup finds no
row, the insert violates the unique index. -/
def raceDB : GormDB (List User) :=
  { listDB with
    First := fun _ _ => .error ErrRecordNotFound
    Create := fun db _ => (.error ErrUniqueViolation, db) }

/-- A database that cannot be reached. -/
def downDB : GormDB (List User) :=
  { First := fun _ _ => .error (.external "dial tcp: connection refused")
    Create := fun db _ => (.error (.external "dial tcp: connection refused"), db)
    Updates := fun db _ _ => (some (.external "dial tcp: connection refused"), db)
    Delete := fun db _ => (some (.external "dial tcp: connection refused"), db) }

/-- The error `bcrypt.ErrPasswordTooLong`. -/
def ErrPasswordTooLong : Err := .external "bcrypt: password length exceeds 72 bytes"

/-- A stand-in for the digest primitive: it rejects passwords longer than 72
bytes, and a digest compares equal to the password it was made from only. -/
def stubBcrypt : BcryptLib :=
  { GenerateFromPassword := fun password _ =>
      if 72 < password.utf8ByteSize then .error ErrPasswordTooLong
      else .ok ("$2a$14$" ++ password)
    CompareHashAndPassword := fun hashed password =>
      if hashed = "$2a$14$" ++ password then none
      else if hashed.length < 7 then
        some (.external "crypto/bcrypt: hashedSecret too short to be a bcrypted password")
      else some ErrMismatchedHashAndPassword }

/-- A stand-in for the token codec and the clock: the token of a claims set is
its subject after the tag `jwt.`; verification accepts such tokens, and tokens
with the tag `raw.`, whose payload has no `UserID` and does not decode. -/
def stubOptions (db : GormDB (List User)) : Options (List User) :=
  { Storages := NewUserStorage db
    Config :=
      { HTTP := { Port := "8080" }
        Log := { Level := "debug" }
        PostgreSQL := { User := "pg", Password := "pgpass", Host := "localhost", Database := "users" }
        Auth :=
          { TokenSecretKey := "s3cr3t", TokenIssuer := "solid"
            AccessTokenLifetime := 900000000000, RefreshTokenLifetime := 86400000000000 } }
    Logger := NewZapLogger "debug"
    PasswordHasher := NewBcrypt stubBcrypt
    SignJWTToken := fun claims _ => .ok ("jwt." ++ claims.Payload.UserID)
    VerifyJWTToken := fun tok _ =>
      match tok.data with
      | 'j' :: 'w' :: 't' :: '.' :: id => .ok [("UserID", String.mk id)]
      | 'r' :: 'a' :: 'w' :: '.' :: sub => .ok [("sub", String.mk sub)]
      | _ => .error (.external "token is malformed")
    Decode := fun payload =>
      match payload.lookup "UserID" with
      | some id => .ok { UserID := id }
      | none => .error (.external "UserID: missing")
    Now := fun n => 1000 + n
    IsExpected := fun e => e.code?.isSome }

/-- The world with store `db`, an empty log and an empty trace. -/
def World.init {σ : Type} (db : σ) : World σ := { store := db, log := [], calls := [], clock := 0 }

def alice : User :=
  { ID := "1", Name := "Alice", Surname := "Doe", EmailAddress := "a@x.com", Password := "$2a$14$pw1" }

/-- The service over the database of a lost race. -/
def raceService : userService (List User) := NewUserService (stubOptions raceDB)

/-- The service over the unreachable database. -/
def downService : userService (List User) := NewUserService (stubOptions downDB)

/-- The service over the list-backed database. -/
def listService : userService (List User) := NewUserService (stubOptions listDB)

def bobOpts : RegisterUserOptions :=
  { Name := "Bob", Surname := "Roe", Phone := "", EmailAddress := "b@x.com", Password := "pw1" }

/-- The zero value of `LoginUserOutput`. -/
def LoginUserOutput.zero : LoginUserOutput := { AccessToken := "", RefreshToken := "", UserID := "" }

/-- The service whose token codec cannot sign. -/
def unsignedService : userService (List User) :=
  { listService with SignJWTToken := fun _ _ => .error (.external "key is of invalid type") }

/-- The world in which `RefreshUserToken` calls `GenerateUserToken`: the world left
by the verification, with the entry `got user` appended to the log. -/
def refreshWorld {σ : Type} (s : userService σ) (w : World σ) (refreshToken : String) (user : User) :
    World σ :=
  (VerifyUserToken s w refreshToken).2.emit
    ((((s.logger.Named "RefreshUserToken").WithContext).With "refreshToken" (.str refreshToken)).entry
      .Debug "got user" [("user", .user (some user))])

/-- The contract of the digest primitive: a digest it produced is not empty and
compares equal to the password it was produced from. -/
structure BcryptLib.Lawful (bcryptLib : BcryptLib) : Prop where
  nonempty : ∀ password cost h, bcryptLib.GenerateFromPassword password cost = .ok h → h ≠ ""
  roundtrip : ∀ password cost h, bcryptLib.GenerateFromPassword password cost = .ok h →
    bcryptLib.CompareHashAndPassword h password = none

/-- A password of 73 bytes. -/
def longPassword : String := String.mk (List.replicate 73 'a')

/-- The record of an update that sets a new password. -/
def passwordUpdate : User :=
  { ID := "1", Name := "", Surname := "", EmailAddress := "", Password := "hunter2" }

/-- The service with `k` for its signing secret, the answers of the token codec
held fixed: the codec answers under any secret as it does for `s` under the
secret of `s`. -/
def userService.replaceSecret {σ : Type} (s : userService σ) (k : String) : userService σ :=
  { s with
    cfg := { s.cfg with Auth := { s.cfg.Auth with TokenSecretKey := k } }
    SignJWTToken := fun claims _ => s.SignJWTToken claims s.cfg.Auth.TokenSecretKey
    VerifyJWTToken := fun tokenStr _ => s.VerifyJWTToken tokenStr s.cfg.Auth.TokenSecretKey }

/-- Two worlds that agree on the store, the log and the clock; their call traces
may differ. -/
def World.sim {σ : Type} (w1 w2 : World σ) : Prop :=
  w1.store = w2.store ∧ w1.log = w2.log ∧ w1.clock = w2.clock

/-- A configuration whose signing secret is `s3cr3t`. -/
def demoConfig : Config := (stubOptions listDB).Config

/-- The entries appended to the log on the way from `w` to `w2`. -/
def World.newEntries {σ : Type} (w w2 : World σ) : List LogEntry := w2.log.drop w.log.length

/-- The messages of the entries of `RegisterUser`. -/
def RegisterUser.messages : List String :=
  ["failed to get user through storage", "user with such email already exists",
    "failed to hash password", "failed to create user in storage", "created user",
    "registered user succesfully"]

/-- The messages of the entries of `LoginUser`. -/
def LoginUser.messages : List String :=
  ["failed to get user through storage", "user not found", "got user",
    "failed to check password correctness", "invalid password", "failed to generate tokens",
    "user logged in"]

/-- The calls appended to the trace on the way from `w` to `w2`. -/
def World.newCalls {σ : Type} (w w2 : World σ) : List Call := w2.calls.drop w.calls.length

/-- The claims sets handed to `SignJWTToken` in a trace, in order, each with the
secret it was signed with. -/
def signedClaims : List Call → List (UniversalClaims × String)
  | [] => []
  | .SignJWTToken claims secret :: cs => (claims, secret) :: signedClaims cs
  | _ :: cs => signedClaims cs

/-- A call that writes to the store: `CreateUser`, `UpdateUser` or `DeleteUser`. -/
def Call.isStoreWrite : Call → Bool
  | .CreateUser _ => true
  | .UpdateUser _ _ => true
  | .DeleteUser _ => true
  | _ => false

/-- A call of `CreateUser`. -/
def Call.isCreateUser : Call → Bool
  | .CreateUser _ => true
  | _ => false

/-- The claims literal of `GenerateUserToken` for a token with lifetime `lifetime`
issued when the clock reads `t`. -/
def claimsAt (cfg : Config) (user : User) (t : Int) (lifetime : Int) : UniversalClaims :=
  { Iss := cfg.Auth.TokenIssuer
    ExpAt := t + lifetime
    NbfAt := t
    IssAt := t
    Payload := { UserID := user.ID } }

/-- The service whose configured access lifetime is zero and whose refresh
lifetime is negative. -/
def expiredService : userService (List User) :=
  { listService with
    cfg := { listService.cfg with
      Auth := { listService.cfg.Auth with AccessTokenLifetime := 0, RefreshTokenLifetime := -1 } } }

/-- The world in which `LoginUser` calls `GenerateUserToken` for the account
`user` it has looked up: the lookup and the comparison are in the trace, the
entry `got user` is in the log. -/
def loginWorld {σ : Type} (s : userService σ) (w : World σ) (opts : LoginUserOptions) (user : User) :
    World σ :=
  ((w.call (.GetUser { ID := none, EmailAddress := some opts.EmailAddress })).emit
    ((((s.logger.Named "LoginUser").WithContext).With "opts" (.loginOpts opts)).entry
      .Debug "got user" [("user", .user (some user))])).call
    (.CompareHashAndPassword { Hashed := user.Password, Password := opts.Password })

/-- The service whose token codec signs the first claims set of a fresh world and
fails on the second. -/
def halfSignedService : userService (List User) :=
  { listService with
    SignJWTToken := fun claims _ =>
      if claims.IssAt = 1000 then .ok ("jwt." ++ claims.Payload.UserID)
      else .error (.external "key is of invalid type") }

/-! # Theorems -/

/-! ## Basic facts about the world -/

@[simp] theorem World.call_store {σ : Type} (w : World σ) (c : Call) : (w.call c).store = w.store := rfl
@[simp] theorem World.call_log {σ : Type} (w : World σ) (c : Call) : (w.call c).log = w.log := rfl
@[simp] theorem World.call_calls {σ : Type} (w : World σ) (c : Call) :
    (w.call c).calls = w.calls ++ [c] := rfl
@[simp] theorem World.call_clock {σ : Type} (w : World σ) (c : Call) : (w.call c).clock = w.clock := rfl
@[simp] theorem World.emit_store {σ : Type} (w : World σ) (e : LogEntry) : (w.emit e).store = w.store := rfl
@[simp] theorem World.emit_log {σ : Type} (w : World σ) (e : LogEntry) :
    (w.emit e).log = w.log ++ [e] := rfl
@[simp] theorem World.emit_calls {σ : Type} (w : World σ) (e : LogEntry) : (w.emit e).calls = w.calls := rfl
@[simp] theorem World.emit_clock {σ : Type} (w : World σ) (e : LogEntry) : (w.emit e).clock = w.clock := rfl
@[simp] theorem World.setStore_store {σ : Type} (w : World σ) (s : σ) : (w.setStore s).store = s := rfl
@[simp] theorem World.setStore_log {σ : Type} (w : World σ) (s : σ) : (w.setStore s).log = w.log := rfl
@[simp] theorem World.setStore_calls {σ : Type} (w : World σ) (s : σ) :
    (w.setStore s).calls = w.calls := rfl
@[simp] theorem World.setStore_clock {σ : Type} (w : World σ) (s : σ) :
    (w.setStore s).clock = w.clock := rfl

/-! ## Registration -/

/-- C1: when the lookup by `opts.EmailAddress` returns a user, `RegisterUser` returns
exactly `ErrRegisterUserUserAlreadyExists` (code `user_already_exists`); the only
collaborator call it makes is that lookup, so neither the hasher nor `CreateUser`
is invoked, and the store is left unchanged. -/
theorem RegisterUser_already_exists {σ : Type} (s : userService σ) (w : World σ)
    (opts : RegisterUserOptions) (u : User)
    (h : s.storages.GetUser w.store { ID := none, EmailAddress := some opts.EmailAddress }
      = .ok (some u)) :
    (RegisterUser s w opts).1 = some ErrRegisterUserUserAlreadyExists ∧
    ErrRegisterUserUserAlreadyExists.code? = some "user_already_exists" ∧
    (RegisterUser s w opts).2.calls
      = w.calls ++ [.GetUser { ID := none, EmailAddress := some opts.EmailAddress }] ∧
    (∀ p, Call.GenerateHashFromPassword p ∉ (RegisterUser s w opts).2.calls.drop w.calls.length) ∧
    (∀ r, Call.CreateUser r ∉ (RegisterUser s w opts).2.calls.drop w.calls.length) ∧
    (RegisterUser s w opts).2.store = w.store := by
  have e : RegisterUser s w opts
      = (some ErrRegisterUserUserAlreadyExists,
          (w.call (.GetUser { ID := none, EmailAddress := some opts.EmailAddress })).emit
            ((((s.logger.Named "RegisterUser").WithContext).With "opts" (.registerOpts opts)).entry
              .Info "user with such email already exists" [])) := by
    simp only [RegisterUser, World.call_store, h]
  rw [e]
  refine ⟨rfl, rfl, rfl, ?_, ?_, rfl⟩ <;> simp

theorem RegisterUser_already_exists_witness :
    (RegisterUser (NewUserService (stubOptions listDB)) (World.init [alice])
        { Name := "Al", Surname := "D", Phone := "", EmailAddress := "a@x.com", Password := "pw2" }).1
      = some ErrRegisterUserUserAlreadyExists ∧
    (RegisterUser (NewUserService (stubOptions listDB)) (World.init [alice])
        { Name := "Al", Surname := "D", Phone := "", EmailAddress := "a@x.com", Password := "pw2" }).2.store
      = [alice] :=
  have h := RegisterUser_already_exists (NewUserService (stubOptions listDB)) (World.init [alice])
    { Name := "Al", Surname := "D", Phone := "", EmailAddress := "a@x.com", Password := "pw2" }
    alice rfl
  ⟨h.1, h.2.2.2.2.2⟩

/-- C2 fails: the lookup by email returns absent, `CreateUser` fails with an error
that is the unique-index violation of the driver, and `RegisterUser` returns the
store error wrapped twice, not `ErrRegisterUserUserAlreadyExists`. -/
theorem RegisterUser_unique_violation_generic :
    raceService.storages.GetUser (World.init ([] : List User)).store
        { ID := none, EmailAddress := some bobOpts.EmailAddress } = .ok none ∧
    (raceService.storages.CreateUser (World.init ([] : List User)).store
        { ID := "", Name := "Bob", Surname := "Roe", EmailAddress := "b@x.com",
          Password := "$2a$14$pw1" }).1 = .error (.wrapped "failed to create user" ErrUniqueViolation) ∧
    (Err.wrapped "failed to create user" ErrUniqueViolation).Is ErrUniqueViolation = true ∧
    (RegisterUser raceService (World.init []) bobOpts).1
      = some (.wrapped "failed to create user in storage"
          (.wrapped "failed to create user" ErrUniqueViolation)) ∧
    (RegisterUser raceService (World.init []) bobOpts).1 ≠ some ErrRegisterUserUserAlreadyExists := by
  refine ⟨rfl, rfl, rfl, rfl, ?_⟩
  have e : (RegisterUser raceService (World.init []) bobOpts).1
      = some (.wrapped "failed to create user in storage"
          (.wrapped "failed to create user" ErrUniqueViolation)) := rfl
  rw [e]
  simp [ErrRegisterUserUserAlreadyExists]

/-- C2, amended: when the lookup by email returns absent and the hasher returns a
digest, every failure `err` of `CreateUser` (a unique-index violation included) makes
`RegisterUser` return the generic failure `failed to create user in storage: err`,
which wraps `err`, carries no code and is not `ErrRegisterUserUserAlreadyExists`. -/
theorem RegisterUser_create_failure_wrapped {σ : Type} (s : userService σ) (w : World σ)
    (opts : RegisterUserOptions) (d : String) (err : Err) (store : σ)
    (hget : s.storages.GetUser w.store { ID := none, EmailAddress := some opts.EmailAddress }
      = .ok none)
    (hhash : s.passwordHasher.GenerateHashFromPassword opts.Password = (d, none))
    (hcreate : s.storages.CreateUser w.store
      { ID := "", Name := opts.Name, Surname := opts.Surname, EmailAddress := opts.EmailAddress,
        Password := d } = (.error err, store)) :
    (RegisterUser s w opts).1 = some (.wrapped "failed to create user in storage" err) ∧
    (Err.wrapped "failed to create user in storage" err).Is err = true ∧
    (Err.wrapped "failed to create user in storage" err).code? = none ∧
    (RegisterUser s w opts).1 ≠ some ErrRegisterUserUserAlreadyExists := by
  have e : (RegisterUser s w opts).1 = some (.wrapped "failed to create user in storage" err) := by
    simp only [RegisterUser, World.call_store, hget, hhash, hcreate]
  refine ⟨e, ?_, rfl, ?_⟩
  · cases err <;> simp [Err.Is]
  · rw [e]; simp [ErrRegisterUserUserAlreadyExists]

theorem RegisterUser_create_failure_wrapped_witness :
    (RegisterUser raceService (World.init []) bobOpts).1
      = some (.wrapped "failed to create user in storage"
          (.wrapped "failed to create user" ErrUniqueViolation)) :=
  (RegisterUser_create_failure_wrapped raceService (World.init []) bobOpts "$2a$14$pw1"
    (.wrapped "failed to create user" ErrUniqueViolation) [] rfl rfl rfl).1

/-! ## Login -/

/-- C3: if the lookup by email returns absent, `LoginUser` fails with
`ErrLoginUserUserNotFound` (code `user_not_found`) and its only collaborator call is
the lookup (the hasher is not called); if the lookup returns a user and the
comparison returns `(false, nil)`, it fails with `ErrLoginUserInvalidPassword` (code
`invalid_password`) after the lookup and the comparison only.  In both cases the
output is the zero value and `GenerateUserToken` is not called. -/
theorem LoginUser_failures {σ : Type} (s : userService σ) (w : World σ) (opts : LoginUserOptions) :
    (s.storages.GetUser w.store { ID := none, EmailAddress := some opts.EmailAddress } = .ok none →
      (LoginUser s w opts).1 = (LoginUserOutput.zero, some ErrLoginUserUserNotFound) ∧
      ErrLoginUserUserNotFound.code? = some "user_not_found" ∧
      (LoginUser s w opts).2.calls
        = w.calls ++ [.GetUser { ID := none, EmailAddress := some opts.EmailAddress }] ∧
      (∀ c, Call.CompareHashAndPassword c ∉ (LoginUser s w opts).2.calls.drop w.calls.length) ∧
      (∀ u, Call.GenerateUserToken u ∉ (LoginUser s w opts).2.calls.drop w.calls.length)) ∧
    (∀ user : User,
      s.storages.GetUser w.store { ID := none, EmailAddress := some opts.EmailAddress }
        = .ok (some user) →
      s.passwordHasher.CompareHashAndPassword { Hashed := user.Password, Password := opts.Password }
        = (false, none) →
      (LoginUser s w opts).1 = (LoginUserOutput.zero, some ErrLoginUserInvalidPassword) ∧
      ErrLoginUserInvalidPassword.code? = some "invalid_password" ∧
      (LoginUser s w opts).2.calls
        = w.calls ++ [.GetUser { ID := none, EmailAddress := some opts.EmailAddress },
            .CompareHashAndPassword { Hashed := user.Password, Password := opts.Password }] ∧
      (∀ u, Call.GenerateUserToken u ∉ (LoginUser s w opts).2.calls.drop w.calls.length)) := by
  constructor
  · intro h
    have e : LoginUser s w opts
        = ((LoginUserOutput.zero, some ErrLoginUserUserNotFound),
            (w.call (.GetUser { ID := none, EmailAddress := some opts.EmailAddress })).emit
              ((((s.logger.Named "LoginUser").WithContext).With "opts" (.loginOpts opts)).entry
                .Info "user not found" [])) := by
      simp only [LoginUser, World.call_store, h, LoginUserOutput.zero]
    rw [e]
    refine ⟨rfl, rfl, rfl, ?_, ?_⟩ <;> simp
  · intro user h hc
    have e : LoginUser s w opts
        = ((LoginUserOutput.zero, some ErrLoginUserInvalidPassword),
            (((w.call (.GetUser { ID := none, EmailAddress := some opts.EmailAddress })).emit
              ((((s.logger.Named "LoginUser").WithContext).With "opts" (.loginOpts opts)).entry
                .Debug "got user" [("user", .user (some user))])).call
              (.CompareHashAndPassword { Hashed := user.Password, Password := opts.Password })).emit
              ((((s.logger.Named "LoginUser").WithContext).With "opts" (.loginOpts opts)).entry
                .Info "invalid password" [])) := by
      simp only [LoginUser, World.call_store, h, hc, LoginUserOutput.zero]
    rw [e]
    refine ⟨rfl, rfl, ?_, ?_⟩ <;> simp

theorem LoginUser_failures_witness :
    (LoginUser listService (World.init [alice]) { EmailAddress := "nobody@x.com", Password := "pw1" }).1
      = (LoginUserOutput.zero, some ErrLoginUserUserNotFound) ∧
    (LoginUser listService (World.init [alice]) { EmailAddress := "a@x.com", Password := "wrong" }).1
      = (LoginUserOutput.zero, some ErrLoginUserInvalidPassword) :=
  ⟨((LoginUser_failures listService (World.init [alice])
      { EmailAddress := "nobody@x.com", Password := "pw1" }).1 rfl).1,
   ((LoginUser_failures listService (World.init [alice])
      { EmailAddress := "a@x.com", Password := "wrong" }).2 alice rfl rfl).1⟩

/-! ## Token verification and refresh -/

/-- C4: if `VerifyJWTToken(token, cfg.Auth.TokenSecretKey)` fails, whatever the cause,
or the payload does not decode, `VerifyUserToken` returns exactly
`ErrVerifyUserTokenInvalidToken` and makes no store call; otherwise it looks the
account up by the decoded `UserID` and returns that account, or
`ErrVerifyUserTokenUserNotFound` when the store reports it absent (and the wrapped
store error when the lookup itself fails). -/
theorem VerifyUserToken_cases {σ : Type} (s : userService σ) (w : World σ) (tokenStr : String) :
    (∀ err, s.VerifyJWTToken tokenStr s.cfg.Auth.TokenSecretKey = .error err →
      (VerifyUserToken s w tokenStr).1 = .error ErrVerifyUserTokenInvalidToken ∧
      (∀ f, Call.GetUser f ∉ (VerifyUserToken s w tokenStr).2.calls.drop w.calls.length) ∧
      (VerifyUserToken s w tokenStr).2.store = w.store) ∧
    (∀ payload err, s.VerifyJWTToken tokenStr s.cfg.Auth.TokenSecretKey = .ok payload →
      s.Decode payload = .error err →
      (VerifyUserToken s w tokenStr).1 = .error ErrVerifyUserTokenInvalidToken ∧
      (∀ f, Call.GetUser f ∉ (VerifyUserToken s w tokenStr).2.calls.drop w.calls.length) ∧
      (VerifyUserToken s w tokenStr).2.store = w.store) ∧
    (∀ payload claimsData, s.VerifyJWTToken tokenStr s.cfg.Auth.TokenSecretKey = .ok payload →
      s.Decode payload = .ok claimsData →
      (VerifyUserToken s w tokenStr).2.calls
        = w.calls ++ [.VerifyJWTToken tokenStr s.cfg.Auth.TokenSecretKey, .Decode payload,
            .GetUser { ID := some claimsData.UserID, EmailAddress := none }] ∧
      (∀ user, s.storages.GetUser w.store { ID := some claimsData.UserID, EmailAddress := none }
          = .ok (some user) → (VerifyUserToken s w tokenStr).1 = .ok user) ∧
      (s.storages.GetUser w.store { ID := some claimsData.UserID, EmailAddress := none } = .ok none →
        (VerifyUserToken s w tokenStr).1 = .error ErrVerifyUserTokenUserNotFound) ∧
      (∀ err, s.storages.GetUser w.store { ID := some claimsData.UserID, EmailAddress := none }
          = .error err →
        (VerifyUserToken s w tokenStr).1 = .error (.wrapped "failed to get user" err))) := by
  refine ⟨?_, ?_, ?_⟩
  · intro err h
    simp [VerifyUserToken, h]
  · intro payload err h hd
    simp [VerifyUserToken, h, hd]
  · intro payload claimsData h hd
    refine ⟨?_, ?_, ?_, ?_⟩
    · simp only [VerifyUserToken, h, hd, World.call_store]
      split <;> simp
    · intro user hg
      simp [VerifyUserToken, h, hd, hg]
    · intro hg
      simp [VerifyUserToken, h, hd, hg]
    · intro err hg
      simp [VerifyUserToken, h, hd, hg]

theorem VerifyUserToken_cases_witness :
    (VerifyUserToken listService (World.init [alice]) "garbage").1
      = .error ErrVerifyUserTokenInvalidToken ∧
    (VerifyUserToken listService (World.init [alice]) "raw.1").1
      = .error ErrVerifyUserTokenInvalidToken ∧
    (VerifyUserToken listService (World.init [alice]) "jwt.1").1 = .ok alice ∧
    (VerifyUserToken listService (World.init [alice]) "jwt.2").1
      = .error ErrVerifyUserTokenUserNotFound ∧
    (VerifyUserToken downService (World.init [alice]) "jwt.1").1
      = .error (.wrapped "failed to get user"
          (.wrapped "failed to get user" (.external "dial tcp: connection refused"))) :=
  ⟨((VerifyUserToken_cases listService (World.init [alice]) "garbage").1
      (.external "token is malformed") rfl).1,
   ((VerifyUserToken_cases listService (World.init [alice]) "raw.1").2.1
      [("sub", "1")] (.external "UserID: missing") rfl rfl).1,
   ((VerifyUserToken_cases listService (World.init [alice]) "jwt.1").2.2
      [("UserID", "1")] { UserID := "1" } rfl rfl).2.1 alice rfl,
   ((VerifyUserToken_cases listService (World.init [alice]) "jwt.2").2.2
      [("UserID", "2")] { UserID := "2" } rfl rfl).2.2.1 rfl,
   ((VerifyUserToken_cases downService (World.init [alice]) "jwt.1").2.2
      [("UserID", "1")] { UserID := "1" } rfl rfl).2.2.2
      (.wrapped "failed to get user" (.external "dial tcp: connection refused")) rfl⟩

/-- C5 fails: `VerifyUserToken` succeeds on the token, with account `alice`, and
`RefreshUserToken` fails on the same token, because signing fails. -/
theorem RefreshUserToken_fails_after_verification :
    (VerifyUserToken unsignedService (World.init [alice]) "jwt.1").1 = .ok alice ∧
    (RefreshUserToken unsignedService (World.init [alice]) "jwt.1").1
      = .error (.wrapped "failed to generate token"
          (.wrapped "failed to generate access token" (.external "key is of invalid type"))) ∧
    ¬ ((∃ e, (RefreshUserToken unsignedService (World.init [alice]) "jwt.1").1 = .error e) ↔
       (∃ e, (VerifyUserToken unsignedService (World.init [alice]) "jwt.1").1 = .error e)) := by
  have hv : (VerifyUserToken unsignedService (World.init [alice]) "jwt.1").1 = .ok alice := rfl
  have hr : (RefreshUserToken unsignedService (World.init [alice]) "jwt.1").1
      = .error (.wrapped "failed to generate token"
          (.wrapped "failed to generate access token" (.external "key is of invalid type"))) := rfl
  refine ⟨hv, hr, ?_⟩
  rw [hv, hr]
  simp

/-- C5, amended: `RefreshUserToken` fails whenever `VerifyUserToken` fails on the same
string, the kind preserved: `ErrVerifyUserTokenInvalidToken` becomes
`ErrRefreshUserTokenInvalidToken` (code `invalid_token`),
`ErrVerifyUserTokenUserNotFound` becomes `ErrRefreshUserTokenUserNotFound` (code
`user_not_found`), any other error is returned wrapped; when verification succeeds
with account `u`, the result is exactly the pair produced by `GenerateUserToken(u)`
if that succeeds, and its error wrapped as `failed to generate token` if it fails. -/
theorem RefreshUserToken_cases {σ : Type} (s : userService σ) (w : World σ) (refreshToken : String) :
    ((VerifyUserToken s w refreshToken).1 = .error ErrVerifyUserTokenInvalidToken →
      (RefreshUserToken s w refreshToken).1 = .error ErrRefreshUserTokenInvalidToken) ∧
    ((VerifyUserToken s w refreshToken).1 = .error ErrVerifyUserTokenUserNotFound →
      (RefreshUserToken s w refreshToken).1 = .error ErrRefreshUserTokenUserNotFound) ∧
    ErrRefreshUserTokenInvalidToken.code? = some "invalid_token" ∧
    ErrRefreshUserTokenUserNotFound.code? = some "user_not_found" ∧
    (∀ err, (VerifyUserToken s w refreshToken).1 = .error err →
      err ≠ ErrVerifyUserTokenInvalidToken → err ≠ ErrVerifyUserTokenUserNotFound →
      (RefreshUserToken s w refreshToken).1 = .error (.wrapped "failed to verify token" err)) ∧
    (∀ u, (VerifyUserToken s w refreshToken).1 = .ok u →
      (∀ pair, (GenerateUserToken s (refreshWorld s w refreshToken u) u).1 = .ok pair →
        (RefreshUserToken s w refreshToken).1 = .ok pair) ∧
      (∀ err, (GenerateUserToken s (refreshWorld s w refreshToken u) u).1 = .error err →
        (RefreshUserToken s w refreshToken).1 = .error (.wrapped "failed to generate token" err))) := by
  unfold refreshWorld
  rcases hv : VerifyUserToken s w refreshToken with ⟨r, w1⟩
  refine ⟨?_, ?_, rfl, rfl, ?_, ?_⟩
  · intro h
    simp only at h
    subst h
    simp [RefreshUserToken, hv]
  · intro h
    simp only at h
    subst h
    simp [RefreshUserToken, hv, ErrVerifyUserTokenUserNotFound, ErrVerifyUserTokenInvalidToken]
  · intro err h h1 h2
    simp only at h
    subst h
    simp [RefreshUserToken, hv, h1, h2]
  · intro u h
    simp only at h
    subst h
    constructor
    · intro pair hg
      rcases hg2 : GenerateUserToken s
        (w1.emit ((((s.logger.Named "RefreshUserToken").WithContext).With "refreshToken"
          (.str refreshToken)).entry .Debug "got user" [("user", .user (some u))])) u with ⟨g, w2⟩
      rw [hg2] at hg
      simp only at hg
      subst hg
      simp [RefreshUserToken, hv, hg2]
    · intro err hg
      rcases hg2 : GenerateUserToken s
        (w1.emit ((((s.logger.Named "RefreshUserToken").WithContext).With "refreshToken"
          (.str refreshToken)).entry .Debug "got user" [("user", .user (some u))])) u with ⟨g, w2⟩
      rw [hg2] at hg
      simp only at hg
      subst hg
      simp [RefreshUserToken, hv, hg2]

theorem RefreshUserToken_cases_witness :
    (RefreshUserToken listService (World.init [alice]) "garbage").1
      = .error ErrRefreshUserTokenInvalidToken ∧
    (RefreshUserToken listService (World.init [alice]) "jwt.2").1
      = .error ErrRefreshUserTokenUserNotFound ∧
    (RefreshUserToken downService (World.init [alice]) "jwt.1").1
      = .error (.wrapped "failed to verify token" (.wrapped "failed to get user"
          (.wrapped "failed to get user" (.external "dial tcp: connection refused")))) ∧
    (RefreshUserToken listService (World.init [alice]) "jwt.1").1
      = .ok { AccessToken := "jwt.1", RefreshToken := "jwt.1" } ∧
    (RefreshUserToken unsignedService (World.init [alice]) "jwt.1").1
      = .error (.wrapped "failed to generate token"
          (.wrapped "failed to generate access token" (.external "key is of invalid type"))) :=
  ⟨(RefreshUserToken_cases listService (World.init [alice]) "garbage").1 rfl,
   (RefreshUserToken_cases listService (World.init [alice]) "jwt.2").2.1 rfl,
   (RefreshUserToken_cases downService (World.init [alice]) "jwt.1").2.2.2.2.1
      (.wrapped "failed to get user"
        (.wrapped "failed to get user" (.external "dial tcp: connection refused")))
      rfl (by decide) (by decide),
   ((RefreshUserToken_cases listService (World.init [alice]) "jwt.1").2.2.2.2.2 alice rfl).1
      { AccessToken := "jwt.1", RefreshToken := "jwt.1" } rfl,
   ((RefreshUserToken_cases unsignedService (World.init [alice]) "jwt.1").2.2.2.2.2 alice rfl).2
      (.wrapped "failed to generate access token" (.external "key is of invalid type")) rfl⟩

/-! ## The password hasher -/

theorem stubBcrypt_lawful : stubBcrypt.Lawful := by
  constructor
  · intro password cost h hgen
    simp only [stubBcrypt] at hgen
    split at hgen
    · cases hgen
    · injection hgen with hgen
      subst hgen
      intro hh
      have hlen := congrArg String.length hh
      rw [String.length_append] at hlen
      have h7 : "$2a$14$".length = 7 := by decide
      have h0 : "".length = 0 := by decide
      omega
  · intro password cost h hgen
    simp only [stubBcrypt] at hgen
    split at hgen
    · cases hgen
    · injection hgen with hgen
      subst hgen
      simp [stubBcrypt]

/-- C6 fails: the primitive keeps its contract and rejects a password of 73 bytes,
and `GenerateHashFromPassword` then returns the empty string and an error. -/
theorem GenerateHashFromPassword_rejects_long_password :
    stubBcrypt.Lawful ∧
    bcrypt.GenerateHashFromPassword stubBcrypt longPassword
      = ("", some (.wrapped "failed to hash password" ErrPasswordTooLong)) :=
  ⟨stubBcrypt_lawful, rfl⟩

/-- C6, amended: for every password that the primitive accepts at cost 14, with
digest `d`, `GenerateHashFromPassword` returns `d` and no error, `d` is not empty,
and `CompareHashAndPassword` on `d` and the password returns `(true, nil)`; when
the primitive rejects the password with `err`, the hasher returns the empty string
and `err` wrapped. -/
theorem bcrypt_generate_then_compare (bcryptLib : BcryptLib) (hl : bcryptLib.Lawful)
    (password : String) :
    (∀ d, bcryptLib.GenerateFromPassword password 14 = .ok d →
      bcrypt.GenerateHashFromPassword bcryptLib password = (d, none) ∧ d ≠ "" ∧
      bcrypt.CompareHashAndPassword bcryptLib
        { Hashed := (bcrypt.GenerateHashFromPassword bcryptLib password).1, Password := password }
        = (true, none)) ∧
    (∀ err, bcryptLib.GenerateFromPassword password 14 = .error err →
      bcrypt.GenerateHashFromPassword bcryptLib password
        = ("", some (.wrapped "failed to hash password" err))) := by
  constructor
  · intro d hgen
    have hc := hl.roundtrip password 14 d hgen
    refine ⟨?_, hl.nonempty password 14 d hgen, ?_⟩
    · simp [bcrypt.GenerateHashFromPassword, hgen]
    · simp [bcrypt.GenerateHashFromPassword, bcrypt.CompareHashAndPassword, hgen, hc, errors_Is]
  · intro err hgen
    simp [bcrypt.GenerateHashFromPassword, hgen]

theorem bcrypt_generate_then_compare_witness :
    bcrypt.GenerateHashFromPassword stubBcrypt "password" = ("$2a$14$password", none) ∧
    bcrypt.CompareHashAndPassword stubBcrypt { Hashed := "$2a$14$password", Password := "password" }
      = (true, none) ∧
    bcrypt.GenerateHashFromPassword stubBcrypt longPassword
      = ("", some (.wrapped "failed to hash password" ErrPasswordTooLong)) :=
  ⟨((bcrypt_generate_then_compare stubBcrypt stubBcrypt_lawful "password").1
      "$2a$14$password" rfl).1,
   ((bcrypt_generate_then_compare stubBcrypt stubBcrypt_lawful "password").1
      "$2a$14$password" rfl).2.2,
   (bcrypt_generate_then_compare stubBcrypt stubBcrypt_lawful longPassword).2
      ErrPasswordTooLong rfl⟩

/-- C7: `CompareHashAndPassword` returns `(true, nil)` exactly when the comparison of
the primitive reports no error, `(false, nil)` exactly when it reports a mismatch,
and `(false, err)` with a non-nil `err` exactly in the remaining case, where `err`
wraps the error of the primitive; it never returns `true` together with an error. -/
theorem CompareHashAndPassword_cases (bcryptLib : BcryptLib) (opts : CompareHashAndPasswordOptions) :
    (bcrypt.CompareHashAndPassword bcryptLib opts = (true, none) ↔
      bcryptLib.CompareHashAndPassword opts.Hashed opts.Password = none) ∧
    (bcrypt.CompareHashAndPassword bcryptLib opts = (false, none) ↔
      errors_Is (bcryptLib.CompareHashAndPassword opts.Hashed opts.Password)
        ErrMismatchedHashAndPassword = true) ∧
    (∀ err, bcrypt.CompareHashAndPassword bcryptLib opts = (false, some err) ↔
      ∃ e, bcryptLib.CompareHashAndPassword opts.Hashed opts.Password = some e ∧
        e.Is ErrMismatchedHashAndPassword = false ∧
        err = .wrapped "failed to check password correctness" e) ∧
    (∀ err, bcrypt.CompareHashAndPassword bcryptLib opts ≠ (true, some err)) := by
  unfold bcrypt.CompareHashAndPassword
  cases hc : bcryptLib.CompareHashAndPassword opts.Hashed opts.Password with
  | none => simp [errors_Is]
  | some e =>
    cases hm : e.Is ErrMismatchedHashAndPassword with
    | true => simp [errors_Is, hm]
    | false =>
      simp only [errors_Is, hm]
      refine ⟨by simp, by simp, ?_, by simp⟩
      intro err
      constructor
      · intro h
        simp at h
        exact ⟨e, rfl, hm, h.symm⟩
      · rintro ⟨e2, h1, -, h3⟩
        injection h1 with h1
        subst h1
        subst h3
        simp

/-! ## Writes of the password field -/

/-- The calls of `UpdateUser` when the lookup finds the account: the lookup and the
store update with the record of the caller as it came; the hasher is not among
them. -/
theorem UpdateUser_calls {σ : Type} (s : userService σ) (w : World σ) (newUser user : User)
    (h : s.storages.GetUser w.store { ID := some newUser.ID, EmailAddress := none }
      = .ok (some user)) :
    (UpdateUser s w newUser).2.calls
      = w.calls ++ [.GetUser { ID := some newUser.ID, EmailAddress := none },
          .UpdateUser user.ID newUser] := by
  simp only [UpdateUser, World.call_store, World.emit_store, h]
  split <;> simp

/-- C8 at the failing input: `UpdateUser` with a record whose `Password` is the
string `hunter2` calls the store update with that record unchanged and never calls
the hasher, and the stored account then holds `hunter2` itself; `RegisterUser` with
the same plaintext passes the digest of the hasher to `CreateUser`. -/
theorem UpdateUser_writes_password_unhashed :
    (UpdateUser listService (World.init [alice]) passwordUpdate).2.calls
      = [.GetUser { ID := some "1", EmailAddress := none }, .UpdateUser "1" passwordUpdate] ∧
    (UpdateUser listService (World.init [alice]) passwordUpdate).1.2 = none ∧
    (UpdateUser listService (World.init [alice]) passwordUpdate).2.store
      = [{ alice with Password := "hunter2" }] ∧
    (RegisterUser listService (World.init [])
        { Name := "Bob", Surname := "Roe", Phone := "", EmailAddress := "b@x.com",
          Password := "hunter2" }).2.calls
      = [.GetUser { ID := none, EmailAddress := some "b@x.com" },
          .GenerateHashFromPassword "hunter2",
          .CreateUser
            { ID := "", Name := "Bob", Surname := "Roe", EmailAddress := "b@x.com",
              Password := "$2a$14$hunter2" }] :=
  ⟨rfl, rfl, rfl, rfl⟩

/-! ## The signing secret and the log -/

theorem World.sim_refl {σ : Type} (w : World σ) : w.sim w := ⟨rfl, rfl, rfl⟩

theorem World.sim_emit {σ : Type} (w1 w2 : World σ) (h : w1.sim w2) (e : LogEntry) :
    (w1.emit e).sim (w2.emit e) := by
  obtain ⟨h1, h2, h3⟩ := h
  exact ⟨h1, by simp [h2], h3⟩

theorem GenerateUserToken_replaceSecret {σ : Type} (s : userService σ) (k : String)
    (w1 w2 : World σ) (h : w1.sim w2) (user : User) :
    (GenerateUserToken (s.replaceSecret k) w1 user).1 = (GenerateUserToken s w2 user).1 ∧
    (GenerateUserToken (s.replaceSecret k) w1 user).2.sim (GenerateUserToken s w2 user).2 := by
  obtain ⟨h1, h2, h3⟩ := h
  simp only [GenerateUserToken, userService.replaceSecret, World.call_clock, World.emit_clock, h3]
  split
  · simp [World.sim, h1, h2, h3]
  · split <;> simp [World.sim, h1, h2, h3]

theorem VerifyUserToken_replaceSecret {σ : Type} (s : userService σ) (k : String)
    (w1 w2 : World σ) (h : w1.sim w2) (tokenStr : String) :
    (VerifyUserToken (s.replaceSecret k) w1 tokenStr).1 = (VerifyUserToken s w2 tokenStr).1 ∧
    (VerifyUserToken (s.replaceSecret k) w1 tokenStr).2.sim (VerifyUserToken s w2 tokenStr).2 := by
  obtain ⟨h1, h2, h3⟩ := h
  simp only [VerifyUserToken, userService.replaceSecret, World.call_store, h1]
  split
  · simp [World.sim, h1, h2, h3]
  · split
    · simp [World.sim, h1, h2, h3]
    · split <;> simp [World.sim, h1, h2, h3]

theorem LoginUser_replaceSecret {σ : Type} (s : userService σ) (k : String) (w : World σ)
    (opts : LoginUserOptions) :
    (LoginUser (s.replaceSecret k) w opts).1 = (LoginUser s w opts).1 ∧
    (LoginUser (s.replaceSecret k) w opts).2.log = (LoginUser s w opts).2.log := by
  have hst : (s.replaceSecret k).storages = s.storages := rfl
  have hh : (s.replaceSecret k).passwordHasher = s.passwordHasher := rfl
  have hl : (s.replaceSecret k).logger = s.logger := rfl
  simp only [LoginUser, hst, hh, hl]
  split
  · simp
  · simp
  · split
    · simp
    · simp
    · rename_i user _ _ _
      generalize World.call _ _ = W
      have h := GenerateUserToken_replaceSecret s k W W (World.sim_refl W) user
      rcases h1 : GenerateUserToken (s.replaceSecret k) W user with ⟨r1, v1⟩
      rcases h2 : GenerateUserToken s W user with ⟨r2, v2⟩
      rw [h1, h2] at h
      obtain ⟨e, -, hlog, -⟩ := h
      simp only at e hlog
      subst e
      cases r1 <;> simp [hlog]

theorem RefreshUserToken_replaceSecret {σ : Type} (s : userService σ) (k : String) (w : World σ)
    (refreshToken : String) :
    (RefreshUserToken (s.replaceSecret k) w refreshToken).1 = (RefreshUserToken s w refreshToken).1 ∧
    (RefreshUserToken (s.replaceSecret k) w refreshToken).2.log
      = (RefreshUserToken s w refreshToken).2.log := by
  have hl : (s.replaceSecret k).logger = s.logger := rfl
  have hx : (s.replaceSecret k).IsExpected = s.IsExpected := rfl
  have hv := VerifyUserToken_replaceSecret s k w w (World.sim_refl w) refreshToken
  simp only [RefreshUserToken, hl, hx]
  rcases h1 : VerifyUserToken (s.replaceSecret k) w refreshToken with ⟨r1, v1⟩
  rcases h2 : VerifyUserToken s w refreshToken with ⟨r2, v2⟩
  rw [h1, h2] at hv
  obtain ⟨e, hsim⟩ := hv
  simp only at e hsim
  subst e
  cases r1 with
  | error err =>
    obtain ⟨-, hlog, -⟩ := hsim
    simp only
    split <;> split <;> try split
    all_goals simp [hlog]
  | ok user =>
    simp only
    have h := GenerateUserToken_replaceSecret s k _ _
      (World.sim_emit v1 v2 hsim ((((s.logger.Named "RefreshUserToken").WithContext).With
        "refreshToken" (.str refreshToken)).entry .Debug "got user" [("user", .user (some user))])) user
    generalize World.emit v1 _ = W1 at h ⊢
    generalize World.emit v2 _ = W2 at h ⊢
    rcases h3 : GenerateUserToken (s.replaceSecret k) W1 user with ⟨r3, v3⟩
    rcases h4 : GenerateUserToken s W2 user with ⟨r4, v4⟩
    rw [h3, h4] at h
    obtain ⟨e, -, hlog, -⟩ := h
    simp only at e hlog
    subst e
    cases r3 <;> simp [hlog]

theorem RegisterUser_replaceSecret {σ : Type} (s : userService σ) (k : String) (w : World σ)
    (opts : RegisterUserOptions) :
    RegisterUser (s.replaceSecret k) w opts = RegisterUser s w opts := rfl

theorem GetUser_replaceSecret {σ : Type} (s : userService σ) (k : String) (w : World σ)
    (opt : GetUserOptions) :
    GetUser (s.replaceSecret k) w opt = GetUser s w opt := rfl

theorem UpdateUser_replaceSecret {σ : Type} (s : userService σ) (k : String) (w : World σ)
    (newUser : User) :
    UpdateUser (s.replaceSecret k) w newUser = UpdateUser s w newUser := rfl

theorem DeleteUser_replaceSecret {σ : Type} (s : userService σ) (k : String) (w : World σ)
    (id : String) :
    DeleteUser (s.replaceSecret k) w id = DeleteUser s w id := rfl

/-- C10 fails: the entry `read config` that `main` writes at startup carries the
configuration, and with it the signing secret. -/
theorem main_logs_signing_secret :
    ∃ e ∈ main (.ok demoConfig), e.contains demoConfig.Auth.TokenSecretKey := by
  decide

/-- C10, amended: no service operation hands the signing secret to the logger, it
goes to the token codec only: with the answers of the codec held fixed, the result
and the log of every service operation are the same whatever the secret is.  The
entry `read config` of `main` carries the whole configuration, the secret
included. -/
theorem service_log_independent_of_secret {σ : Type} (s : userService σ) (k : String)
    (w : World σ) :
    (s.replaceSecret k).cfg.Auth.TokenSecretKey = k ∧
    (∀ opts, (RegisterUser (s.replaceSecret k) w opts).2.log = (RegisterUser s w opts).2.log) ∧
    (∀ opts, (LoginUser (s.replaceSecret k) w opts).2.log = (LoginUser s w opts).2.log) ∧
    (∀ opt, (GetUser (s.replaceSecret k) w opt).2.log = (GetUser s w opt).2.log) ∧
    (∀ newUser, (UpdateUser (s.replaceSecret k) w newUser).2.log = (UpdateUser s w newUser).2.log) ∧
    (∀ id, (DeleteUser (s.replaceSecret k) w id).2.log = (DeleteUser s w id).2.log) ∧
    (∀ tokenStr, (VerifyUserToken (s.replaceSecret k) w tokenStr).2.log
      = (VerifyUserToken s w tokenStr).2.log) ∧
    (∀ refreshToken, (RefreshUserToken (s.replaceSecret k) w refreshToken).2.log
      = (RefreshUserToken s w refreshToken).2.log) ∧
    (∀ user, (GenerateUserToken (s.replaceSecret k) w user).2.log
      = (GenerateUserToken s w user).2.log) ∧
    (∀ cfg, main (.ok cfg)
      = [(NewZapLogger "main").entry .Info "read config" [("config", .config cfg)]]) ∧
    (∀ cfg, ∃ e ∈ main (.ok cfg), e.contains cfg.Auth.TokenSecretKey) := by
  refine ⟨rfl, ?_, ?_, ?_, ?_, ?_, ?_, ?_, ?_, ?_, ?_⟩
  · intro opts; rw [RegisterUser_replaceSecret]
  · intro opts; exact (LoginUser_replaceSecret s k w opts).2
  · intro opt; rw [GetUser_replaceSecret]
  · intro newUser; rw [UpdateUser_replaceSecret]
  · intro id; rw [DeleteUser_replaceSecret]
  · intro tokenStr
    exact (VerifyUserToken_replaceSecret s k w w (World.sim_refl w) tokenStr).2.2.1
  · intro refreshToken; exact (RefreshUserToken_replaceSecret s k w refreshToken).2
  · intro user
    exact (GenerateUserToken_replaceSecret s k w w (World.sim_refl w) user).2.2.1
  · intro cfg; rfl
  · intro cfg
    refine ⟨(NewZapLogger "main").entry .Info "read config" [("config", .config cfg)], ?_, ?_⟩
    · simp [main]
    · simp [LogEntry.contains, LogEntry.strings, Logger.entry, NewZapLogger, LogValue.strings,
        Config.strings]

/-! ## Passwords and the log -/

theorem World.newEntries_of_log {σ : Type} (w w2 : World σ) (es : List LogEntry)
    (h : w2.log = w.log ++ es) : w.newEntries w2 = es := by
  simp [World.newEntries, h]

theorem LogEntry.contains_of_field (e : LogEntry) (key : String) (v : LogValue) (str : String)
    (hf : (key, v) ∈ e.fields) (hs : str ∈ v.strings) : e.contains str := by
  simp only [LogEntry.contains, LogEntry.strings, List.mem_flatten, List.mem_map]
  exact ⟨v.strings, ⟨(key, v), hf, rfl⟩, hs⟩

theorem GenerateUserToken_log {σ : Type} (s : userService σ) (w : World σ) (user : User) :
    ∃ es, (GenerateUserToken s w user).2.log = w.log ++ es ∧
      ∀ e ∈ es, e.name = s.logger.name ++ ["GenerateUserToken"] := by
  simp only [GenerateUserToken]
  split
  · exact ⟨_, by simp; rfl, by simp [Logger.entry, Logger.Named, Logger.With, Logger.WithContext]⟩
  · split
    · refine ⟨[_, _], by simp; exact ⟨rfl, rfl⟩, ?_⟩
      simp [Logger.entry, Logger.Named, Logger.With, Logger.WithContext]
    · refine ⟨[_, _], by simp; exact ⟨rfl, rfl⟩, ?_⟩
      simp [Logger.entry, Logger.Named, Logger.With, Logger.WithContext]

theorem RegisterUser_log {σ : Type} (s : userService σ) (w : World σ) (opts : RegisterUserOptions) :
    w.newEntries (RegisterUser s w opts).2 ≠ [] ∧
    ∀ e ∈ w.newEntries (RegisterUser s w opts).2,
      ("opts", LogValue.registerOpts opts) ∈ e.fields ∧ e.msg ∈ RegisterUser.messages := by
  simp only [RegisterUser]
  split
  · rw [World.newEntries_of_log _ _ [_] (by simp; rfl)]
    simp [Logger.entry, Logger.With, RegisterUser.messages]
  · rw [World.newEntries_of_log _ _ [_] (by simp; rfl)]
    simp [Logger.entry, Logger.With, RegisterUser.messages]
  · split
    · rw [World.newEntries_of_log _ _ [_] (by simp; rfl)]
      simp [Logger.entry, Logger.With, RegisterUser.messages]
    · split
      · rw [World.newEntries_of_log _ _ [_] (by simp; rfl)]
        simp [Logger.entry, Logger.With, RegisterUser.messages]
      · rw [World.newEntries_of_log _ _ [_, _] (by simp; exact ⟨rfl, rfl⟩)]
        simp [Logger.entry, Logger.With, RegisterUser.messages]

theorem LoginUser_log {σ : Type} (s : userService σ) (w : World σ) (opts : LoginUserOptions) :
    (∃ e ∈ w.newEntries (LoginUser s w opts).2, ("opts", LogValue.loginOpts opts) ∈ e.fields) ∧
    (∀ e ∈ w.newEntries (LoginUser s w opts).2,
      (("opts", LogValue.loginOpts opts) ∈ e.fields ∧ e.msg ∈ LoginUser.messages) ∨
      e.name = s.logger.name ++ ["GenerateUserToken"]) ∧
    (∀ user, s.storages.GetUser w.store { ID := none, EmailAddress := some opts.EmailAddress }
        = .ok (some user) →
      ∃ e ∈ w.newEntries (LoginUser s w opts).2,
        e.msg = "got user" ∧ ("user", LogValue.user (some user)) ∈ e.fields) := by
  simp only [LoginUser, World.call_store]
  split
  · rename_i h
    rw [World.newEntries_of_log _ _ [_] (by simp; rfl)]
    simp [Logger.entry, Logger.With, LoginUser.messages, h]
  · rename_i h
    rw [World.newEntries_of_log _ _ [_] (by simp; rfl)]
    simp [Logger.entry, Logger.With, LoginUser.messages, h]
  · rename_i user h
    split
    · rw [World.newEntries_of_log _ _ [_, _] (by simp; exact ⟨rfl, rfl⟩)]
      simp [Logger.entry, Logger.With, LoginUser.messages, h]
    · rw [World.newEntries_of_log _ _ [_, _] (by simp; exact ⟨rfl, rfl⟩)]
      simp [Logger.entry, Logger.With, LoginUser.messages, h]
    · obtain ⟨es, hlog, hnames⟩ := GenerateUserToken_log s
        (((w.call (.GetUser { ID := none, EmailAddress := some opts.EmailAddress })).emit
          ((((s.logger.Named "LoginUser").WithContext).With "opts" (.loginOpts opts)).entry
            .Debug "got user" [("user", .user (some user))])).call
          (.CompareHashAndPassword { Hashed := user.Password, Password := opts.Password })) user
      rcases hg : GenerateUserToken s
        (((w.call (.GetUser { ID := none, EmailAddress := some opts.EmailAddress })).emit
          ((((s.logger.Named "LoginUser").WithContext).With "opts" (.loginOpts opts)).entry
            .Debug "got user" [("user", .user (some user))])).call
          (.CompareHashAndPassword { Hashed := user.Password, Password := opts.Password })) user
        with ⟨r, v⟩
      rw [hg] at hlog
      simp only [World.call_log, World.emit_log] at hlog
      cases r with
      | error err =>
        simp only
        rw [World.newEntries_of_log _ _
          (((((s.logger.Named "LoginUser").WithContext).With "opts" (.loginOpts opts)).entry
              .Debug "got user" [("user", .user (some user))]) ::
            (es ++ [(((s.logger.Named "LoginUser").WithContext).With "opts" (.loginOpts opts)).entry
              .Error "failed to generate tokens" [("err", .err err)]]))
          (by simp [hlog])]
        refine ⟨⟨_, List.mem_cons_self _ _, ?_⟩, ?_, ?_⟩
        · simp [Logger.entry, Logger.With]
        · intro e he
          simp only [List.mem_cons, List.mem_append, List.not_mem_nil, or_false] at he
          rcases he with he | he | he
          · subst he; left; simp [Logger.entry, Logger.With, LoginUser.messages]
          · right; exact hnames e he
          · subst he; left; simp [Logger.entry, Logger.With, LoginUser.messages]
        · intro user2 h2
          rw [h] at h2
          injection h2 with h2
          injection h2 with h2
          subst h2
          exact ⟨_, List.mem_cons_self _ _, by simp [Logger.entry, Logger.With]⟩
      | ok tokens =>
        simp only
        rw [World.newEntries_of_log _ _
          (((((s.logger.Named "LoginUser").WithContext).With "opts" (.loginOpts opts)).entry
              .Debug "got user" [("user", .user (some user))]) ::
            (es ++ [(((s.logger.Named "LoginUser").WithContext).With "opts" (.loginOpts opts)).entry
              .Info "user logged in" [("tokens", .tokens tokens)]]))
          (by simp [hlog])]
        refine ⟨⟨_, List.mem_cons_self _ _, ?_⟩, ?_, ?_⟩
        · simp [Logger.entry, Logger.With]
        · intro e he
          simp only [List.mem_cons, List.mem_append, List.not_mem_nil, or_false] at he
          rcases he with he | he | he
          · subst he; left; simp [Logger.entry, Logger.With, LoginUser.messages]
          · right; exact hnames e he
          · subst he; left; simp [Logger.entry, Logger.With, LoginUser.messages]
        · intro user2 h2
          rw [h] at h2
          injection h2 with h2
          injection h2 with h2
          subst h2
          exact ⟨_, List.mem_cons_self _ _, by simp [Logger.entry, Logger.With]⟩

/-- C9 fails: an entry logged by `RegisterUser` contains the plaintext password of
the caller, so does an entry logged by `LoginUser`, and an entry logged by
`LoginUser` contains the password hash of the stored account. -/
theorem RegisterUser_LoginUser_log_password :
    (∃ e ∈ (RegisterUser listService (World.init []) bobOpts).2.log, e.contains bobOpts.Password) ∧
    (∃ e ∈ (LoginUser listService (World.init [alice])
        { EmailAddress := "a@x.com", Password := "pw1" }).2.log, e.contains "pw1") ∧
    (∃ e ∈ (LoginUser listService (World.init [alice])
        { EmailAddress := "a@x.com", Password := "pw1" }).2.log, e.contains alice.Password) := by
  decide

/-- C9, amended: `RegisterUser` and `LoginUser` attach the options of the caller, the
plaintext password included, as the field `opts` to every entry their logger writes:
every entry of `RegisterUser`, and every entry of a `LoginUser` call except those
written by the nested `GenerateUserToken`, contains the plaintext password; the
entry `got user` of `LoginUser` carries the stored account, its password hash
included.  The message of each of these entries is one of a fixed list of
literals. -/
theorem RegisterUser_LoginUser_log_options {σ : Type} (s : userService σ) (w : World σ) :
    (∀ opts : RegisterUserOptions,
      w.newEntries (RegisterUser s w opts).2 ≠ [] ∧
      ∀ e ∈ w.newEntries (RegisterUser s w opts).2,
        ("opts", LogValue.registerOpts opts) ∈ e.fields ∧ e.contains opts.Password ∧
        e.msg ∈ RegisterUser.messages) ∧
    (∀ opts : LoginUserOptions,
      (∃ e ∈ w.newEntries (LoginUser s w opts).2,
        ("opts", LogValue.loginOpts opts) ∈ e.fields ∧ e.contains opts.Password) ∧
      ∀ e ∈ w.newEntries (LoginUser s w opts).2,
        (("opts", LogValue.loginOpts opts) ∈ e.fields ∧ e.contains opts.Password ∧
          e.msg ∈ LoginUser.messages) ∨
        e.name = s.logger.name ++ ["GenerateUserToken"]) ∧
    (∀ (opts : LoginUserOptions) (user : User),
      s.storages.GetUser w.store { ID := none, EmailAddress := some opts.EmailAddress }
        = .ok (some user) →
      ∃ e ∈ w.newEntries (LoginUser s w opts).2, e.msg = "got user" ∧ e.contains user.Password) := by
  refine ⟨?_, ?_, ?_⟩
  · intro opts
    refine ⟨(RegisterUser_log s w opts).1, ?_⟩
    intro e he
    obtain ⟨hf, hm⟩ := (RegisterUser_log s w opts).2 e he
    exact ⟨hf, e.contains_of_field _ _ _ hf (by simp [LogValue.strings]), hm⟩
  · intro opts
    obtain ⟨⟨e0, he0, hf0⟩, hall, -⟩ := LoginUser_log s w opts
    refine ⟨⟨e0, he0, hf0, e0.contains_of_field _ _ _ hf0 (by simp [LogValue.strings])⟩, ?_⟩
    intro e he
    rcases hall e he with ⟨hf, hm⟩ | hn
    · exact Or.inl ⟨hf, e.contains_of_field _ _ _ hf (by simp [LogValue.strings]), hm⟩
    · exact Or.inr hn
  · intro opts user h
    obtain ⟨e, he, hm, hf⟩ := (LoginUser_log s w opts).2.2 user h
    exact ⟨e, he, hm, e.contains_of_field _ _ _ hf (by simp [LogValue.strings, User.strings])⟩

theorem RegisterUser_LoginUser_log_options_witness :
    ∃ e ∈ (World.init [alice]).newEntries
        (LoginUser listService (World.init [alice]) { EmailAddress := "a@x.com", Password := "pw1" }).2,
      e.msg = "got user" ∧ e.contains alice.Password :=
  (RegisterUser_LoginUser_log_options listService (World.init [alice])).2.2
    { EmailAddress := "a@x.com", Password := "pw1" } alice rfl

/-! ## Token issuance -/

theorem World.newCalls_of_calls {σ : Type} (w w2 : World σ) (cs : List Call)
    (h : w2.calls = w.calls ++ cs) : w.newCalls w2 = cs := by
  simp [World.newCalls, h]

/-- The run of `GenerateUserToken`: its result, the calls it appends and the store
it leaves, by the outcome of the two signings. -/
theorem GenerateUserToken_run {σ : Type} (ts : userService σ) (w : World σ) (user : User) :
    (GenerateUserToken ts w user).2.store = w.store ∧
    (∀ err, ts.SignJWTToken (claimsAt ts.cfg user (ts.Now w.clock) ts.cfg.Auth.AccessTokenLifetime)
        ts.cfg.Auth.TokenSecretKey = .error err →
      (GenerateUserToken ts w user).1 = .error (.wrapped "failed to generate access token" err) ∧
      w.newCalls (GenerateUserToken ts w user).2
        = [.GenerateUserToken user, .Now,
            .SignJWTToken (claimsAt ts.cfg user (ts.Now w.clock) ts.cfg.Auth.AccessTokenLifetime)
              ts.cfg.Auth.TokenSecretKey]) ∧
    (∀ accessToken,
      ts.SignJWTToken (claimsAt ts.cfg user (ts.Now w.clock) ts.cfg.Auth.AccessTokenLifetime)
        ts.cfg.Auth.TokenSecretKey = .ok accessToken →
      w.newCalls (GenerateUserToken ts w user).2
        = [.GenerateUserToken user, .Now,
            .SignJWTToken (claimsAt ts.cfg user (ts.Now w.clock) ts.cfg.Auth.AccessTokenLifetime)
              ts.cfg.Auth.TokenSecretKey,
            .Now,
            .SignJWTToken
              (claimsAt ts.cfg user (ts.Now (w.clock + 1)) ts.cfg.Auth.RefreshTokenLifetime)
              ts.cfg.Auth.TokenSecretKey] ∧
      (∀ err,
        ts.SignJWTToken (claimsAt ts.cfg user (ts.Now (w.clock + 1)) ts.cfg.Auth.RefreshTokenLifetime)
          ts.cfg.Auth.TokenSecretKey = .error err →
        (GenerateUserToken ts w user).1
          = .error (.wrapped "failed to generate refresh token" err)) ∧
      (∀ refreshToken,
        ts.SignJWTToken (claimsAt ts.cfg user (ts.Now (w.clock + 1)) ts.cfg.Auth.RefreshTokenLifetime)
          ts.cfg.Auth.TokenSecretKey = .ok refreshToken →
        (GenerateUserToken ts w user).1
          = .ok { AccessToken := accessToken, RefreshToken := refreshToken })) := by
  refine ⟨?_, ?_, ?_⟩
  · simp only [GenerateUserToken]
    split
    · rfl
    · split <;> rfl
  · intro err h
    simp only [claimsAt] at h
    constructor
    · simp only [GenerateUserToken, World.call_clock, h]
    · apply World.newCalls_of_calls
      simp only [GenerateUserToken, World.call_clock, h, claimsAt]
      simp
  · intro accessToken h
    simp only [claimsAt] at h
    refine ⟨?_, ?_, ?_⟩
    · apply World.newCalls_of_calls
      simp only [GenerateUserToken, World.call_clock, World.emit_clock, h, claimsAt]
      split <;> simp
    · intro err h2
      simp only [claimsAt] at h2
      simp only [GenerateUserToken, World.call_clock, World.emit_clock, h, h2]
    · intro refreshToken h2
      simp only [claimsAt] at h2
      simp only [GenerateUserToken, World.call_clock, World.emit_clock, h, h2]

/-- C11 fails: with an access lifetime of zero and a negative refresh lifetime, the
access claims that `GenerateUserToken` builds expire at their issued-at time and
the refresh claims before it. -/
theorem GenerateUserToken_expiry_not_after_issue :
    signedClaims ((World.init [alice]).newCalls
        (GenerateUserToken expiredService (World.init [alice]) alice).2)
      = [({ Iss := "solid", ExpAt := 1000, NbfAt := 1000, IssAt := 1000,
            Payload := { UserID := "1" } }, "s3cr3t"),
         ({ Iss := "solid", ExpAt := 1000, NbfAt := 1001, IssAt := 1001,
            Payload := { UserID := "1" } }, "s3cr3t")] ∧
    ¬ (∀ ck ∈ signedClaims ((World.init [alice]).newCalls
        (GenerateUserToken expiredService (World.init [alice]) alice).2),
      ck.1.IssAt < ck.1.ExpAt) := by
  have e : signedClaims ((World.init [alice]).newCalls
        (GenerateUserToken expiredService (World.init [alice]) alice).2)
      = [({ Iss := "solid", ExpAt := 1000, NbfAt := 1000, IssAt := 1000,
            Payload := { UserID := "1" } }, "s3cr3t"),
         ({ Iss := "solid", ExpAt := 1000, NbfAt := 1001, IssAt := 1001,
            Payload := { UserID := "1" } }, "s3cr3t")] := rfl
  refine ⟨e, ?_⟩
  rw [e]
  simp

/-- C11, amended: `GenerateUserToken` always builds the access claims, issued at the
first clock reading, and their expiry is their issued-at time plus
`cfg.Auth.AccessTokenLifetime`; when the access signing fails these are the only
claims built, and when it succeeds the refresh claims are built as well, issued at
the second clock reading, with expiry their issued-at time plus
`cfg.Auth.RefreshTokenLifetime`, and no others.  So the expiry of the access claims
is strictly after their issued-at time exactly when the access lifetime is
positive, and that of the refresh claims exactly when the refresh lifetime is
positive; when both lifetimes are positive, every claims set built has its expiry
strictly after its issued-at time. -/
theorem GenerateUserToken_expiry {σ : Type} (ts : userService σ) (w : World σ) (user : User) :
    (∃ access rest,
      signedClaims (w.newCalls (GenerateUserToken ts w user).2)
        = (access, ts.cfg.Auth.TokenSecretKey) :: rest ∧
      access.IssAt = ts.Now w.clock ∧
      access.ExpAt = access.IssAt + ts.cfg.Auth.AccessTokenLifetime ∧
      (access.IssAt < access.ExpAt ↔ 0 < ts.cfg.Auth.AccessTokenLifetime)) ∧
    (∀ err,
      ts.SignJWTToken
        { Iss := ts.cfg.Auth.TokenIssuer
          ExpAt := ts.Now w.clock + ts.cfg.Auth.AccessTokenLifetime
          NbfAt := ts.Now w.clock
          IssAt := ts.Now w.clock
          Payload := { UserID := user.ID } } ts.cfg.Auth.TokenSecretKey = .error err →
      (signedClaims (w.newCalls (GenerateUserToken ts w user).2)).length = 1) ∧
    (∀ accessToken,
      ts.SignJWTToken
        { Iss := ts.cfg.Auth.TokenIssuer
          ExpAt := ts.Now w.clock + ts.cfg.Auth.AccessTokenLifetime
          NbfAt := ts.Now w.clock
          IssAt := ts.Now w.clock
          Payload := { UserID := user.ID } } ts.cfg.Auth.TokenSecretKey = .ok accessToken →
      ∃ access refresh,
        signedClaims (w.newCalls (GenerateUserToken ts w user).2)
          = [(access, ts.cfg.Auth.TokenSecretKey), (refresh, ts.cfg.Auth.TokenSecretKey)] ∧
        access.IssAt = ts.Now w.clock ∧
        access.ExpAt = access.IssAt + ts.cfg.Auth.AccessTokenLifetime ∧
        refresh.IssAt = ts.Now (w.clock + 1) ∧
        refresh.ExpAt = refresh.IssAt + ts.cfg.Auth.RefreshTokenLifetime ∧
        (access.IssAt < access.ExpAt ↔ 0 < ts.cfg.Auth.AccessTokenLifetime) ∧
        (refresh.IssAt < refresh.ExpAt ↔ 0 < ts.cfg.Auth.RefreshTokenLifetime)) ∧
    (0 < ts.cfg.Auth.AccessTokenLifetime → 0 < ts.cfg.Auth.RefreshTokenLifetime →
      signedClaims (w.newCalls (GenerateUserToken ts w user).2) ≠ [] ∧
      ∀ ck ∈ signedClaims (w.newCalls (GenerateUserToken ts w user).2),
        ck.1.IssAt < ck.1.ExpAt) := by
  obtain ⟨-, herr, hok⟩ := GenerateUserToken_run ts w user
  have hacc : ∀ t : Int, (t < t + ts.cfg.Auth.AccessTokenLifetime ↔
      0 < ts.cfg.Auth.AccessTokenLifetime) := fun t => by omega
  have href : ∀ t : Int, (t < t + ts.cfg.Auth.RefreshTokenLifetime ↔
      0 < ts.cfg.Auth.RefreshTokenLifetime) := fun t => by omega
  refine ⟨?_, ?_, ?_, ?_⟩
  · cases hs : ts.SignJWTToken
        (claimsAt ts.cfg user (ts.Now w.clock) ts.cfg.Auth.AccessTokenLifetime)
        ts.cfg.Auth.TokenSecretKey with
    | error err =>
      rw [(herr err hs).2]
      exact ⟨_, [], rfl, rfl, rfl, hacc _⟩
    | ok accessToken =>
      rw [(hok accessToken hs).1]
      exact ⟨_, _, rfl, rfl, rfl, hacc _⟩
  · intro err hs
    rw [(herr err hs).2]
    rfl
  · intro accessToken hs
    rw [(hok accessToken hs).1]
    exact ⟨_, _, rfl, rfl, rfl, rfl, rfl, hacc _, href _⟩
  · intro ha hr
    cases hs : ts.SignJWTToken
        (claimsAt ts.cfg user (ts.Now w.clock) ts.cfg.Auth.AccessTokenLifetime)
        ts.cfg.Auth.TokenSecretKey with
    | error err =>
      rw [(herr err hs).2]
      refine ⟨by simp [signedClaims], ?_⟩
      intro ck hck
      simp only [signedClaims, List.mem_singleton] at hck
      subst hck
      exact (hacc _).2 ha
    | ok accessToken =>
      rw [(hok accessToken hs).1]
      refine ⟨by simp [signedClaims], ?_⟩
      intro ck hck
      simp only [signedClaims, List.mem_cons, List.not_mem_nil, or_false] at hck
      rcases hck with hck | hck
      · subst hck; exact (hacc _).2 ha
      · subst hck; exact (href _).2 hr

theorem GenerateUserToken_expiry_witness :
    (signedClaims ((World.init [alice]).newCalls
        (GenerateUserToken listService (World.init [alice]) alice).2) ≠ [] ∧
      ∀ ck ∈ signedClaims ((World.init [alice]).newCalls
          (GenerateUserToken listService (World.init [alice]) alice).2),
        ck.1.IssAt < ck.1.ExpAt) ∧
    (signedClaims ((World.init [alice]).newCalls
        (GenerateUserToken unsignedService (World.init [alice]) alice).2)).length = 1 ∧
    (∃ access refresh,
      signedClaims ((World.init [alice]).newCalls
          (GenerateUserToken listService (World.init [alice]) alice).2)
        = [(access, listService.cfg.Auth.TokenSecretKey),
            (refresh, listService.cfg.Auth.TokenSecretKey)] ∧
      access.IssAt = listService.Now (World.init [alice]).clock ∧
      access.ExpAt = access.IssAt + listService.cfg.Auth.AccessTokenLifetime ∧
      refresh.IssAt = listService.Now ((World.init [alice]).clock + 1) ∧
      refresh.ExpAt = refresh.IssAt + listService.cfg.Auth.RefreshTokenLifetime ∧
      (access.IssAt < access.ExpAt ↔ 0 < listService.cfg.Auth.AccessTokenLifetime) ∧
      (refresh.IssAt < refresh.ExpAt ↔ 0 < listService.cfg.Auth.RefreshTokenLifetime)) :=
  ⟨(GenerateUserToken_expiry listService (World.init [alice]) alice).2.2.2
      (by decide) (by decide),
   (GenerateUserToken_expiry unsignedService (World.init [alice]) alice).2.1
      (.external "key is of invalid type") rfl,
   (GenerateUserToken_expiry listService (World.init [alice]) alice).2.2.1 "jwt.1" rfl⟩

/-- C12: `GenerateUserToken(u)` takes a clock reading `t` and signs the access claims
(issuer `cfg.Auth.TokenIssuer`, subject `u.ID`, not-before and issued-at `t`, expiry
`t + cfg.Auth.AccessTokenLifetime`) with `cfg.Auth.TokenSecretKey`; when that
succeeds it takes a second reading and signs the refresh claims (the same issuer
and subject, expiry the reading plus `cfg.Auth.RefreshTokenLifetime`) with the same
secret, so that exactly two claims sets are signed, and when both signings succeed
it returns the two signed strings as `AccessToken` and `RefreshToken`; if either
signing fails it returns an error and no pair. -/
theorem GenerateUserToken_signs_two_claims {σ : Type} (ts : userService σ) (w : World σ)
    (user : User) :
    (∀ accessToken,
      ts.SignJWTToken
        { Iss := ts.cfg.Auth.TokenIssuer
          ExpAt := ts.Now w.clock + ts.cfg.Auth.AccessTokenLifetime
          NbfAt := ts.Now w.clock
          IssAt := ts.Now w.clock
          Payload := { UserID := user.ID } } ts.cfg.Auth.TokenSecretKey = .ok accessToken →
      w.newCalls (GenerateUserToken ts w user).2
        = [.GenerateUserToken user, .Now,
            .SignJWTToken
              { Iss := ts.cfg.Auth.TokenIssuer
                ExpAt := ts.Now w.clock + ts.cfg.Auth.AccessTokenLifetime
                NbfAt := ts.Now w.clock
                IssAt := ts.Now w.clock
                Payload := { UserID := user.ID } } ts.cfg.Auth.TokenSecretKey,
            .Now,
            .SignJWTToken
              { Iss := ts.cfg.Auth.TokenIssuer
                ExpAt := ts.Now (w.clock + 1) + ts.cfg.Auth.RefreshTokenLifetime
                NbfAt := ts.Now (w.clock + 1)
                IssAt := ts.Now (w.clock + 1)
                Payload := { UserID := user.ID } } ts.cfg.Auth.TokenSecretKey] ∧
      (signedClaims (w.newCalls (GenerateUserToken ts w user).2)).length = 2 ∧
      (∀ refreshToken,
        ts.SignJWTToken
          { Iss := ts.cfg.Auth.TokenIssuer
            ExpAt := ts.Now (w.clock + 1) + ts.cfg.Auth.RefreshTokenLifetime
            NbfAt := ts.Now (w.clock + 1)
            IssAt := ts.Now (w.clock + 1)
            Payload := { UserID := user.ID } } ts.cfg.Auth.TokenSecretKey = .ok refreshToken →
        (GenerateUserToken ts w user).1
          = .ok { AccessToken := accessToken, RefreshToken := refreshToken }) ∧
      (∀ err,
        ts.SignJWTToken
          { Iss := ts.cfg.Auth.TokenIssuer
            ExpAt := ts.Now (w.clock + 1) + ts.cfg.Auth.RefreshTokenLifetime
            NbfAt := ts.Now (w.clock + 1)
            IssAt := ts.Now (w.clock + 1)
            Payload := { UserID := user.ID } } ts.cfg.Auth.TokenSecretKey = .error err →
        (GenerateUserToken ts w user).1
          = .error (.wrapped "failed to generate refresh token" err))) ∧
    (∀ err,
      ts.SignJWTToken
        { Iss := ts.cfg.Auth.TokenIssuer
          ExpAt := ts.Now w.clock + ts.cfg.Auth.AccessTokenLifetime
          NbfAt := ts.Now w.clock
          IssAt := ts.Now w.clock
          Payload := { UserID := user.ID } } ts.cfg.Auth.TokenSecretKey = .error err →
      (GenerateUserToken ts w user).1
        = .error (.wrapped "failed to generate access token" err) ∧
      w.newCalls (GenerateUserToken ts w user).2
        = [.GenerateUserToken user, .Now,
            .SignJWTToken
              { Iss := ts.cfg.Auth.TokenIssuer
                ExpAt := ts.Now w.clock + ts.cfg.Auth.AccessTokenLifetime
                NbfAt := ts.Now w.clock
                IssAt := ts.Now w.clock
                Payload := { UserID := user.ID } } ts.cfg.Auth.TokenSecretKey]) := by
  obtain ⟨-, herr, hok⟩ := GenerateUserToken_run ts w user
  simp only [claimsAt] at herr hok
  constructor
  · intro accessToken h
    obtain ⟨hc, he, hp⟩ := hok accessToken h
    refine ⟨hc, ?_, hp, he⟩
    rw [hc]
    rfl
  · intro err h
    exact herr err h

theorem GenerateUserToken_signs_two_claims_witness :
    (GenerateUserToken listService (World.init [alice]) alice).1
      = .ok { AccessToken := "jwt.1", RefreshToken := "jwt.1" } ∧
    (GenerateUserToken halfSignedService (World.init [alice]) alice).1
      = .error (.wrapped "failed to generate refresh token" (.external "key is of invalid type")) ∧
    (GenerateUserToken unsignedService (World.init [alice]) alice).1
      = .error (.wrapped "failed to generate access token" (.external "key is of invalid type")) :=
  ⟨((GenerateUserToken_signs_two_claims listService (World.init [alice]) alice).1
      "jwt.1" rfl).2.2.1 "jwt.1" rfl,
   ((GenerateUserToken_signs_two_claims halfSignedService (World.init [alice]) alice).1
      "jwt.1" rfl).2.2.2 (.external "key is of invalid type") rfl,
   ((GenerateUserToken_signs_two_claims unsignedService (World.init [alice]) alice).2
      (.external "key is of invalid type") rfl).1⟩

/-! ## Successful registration and login -/

/-- C13: when the lookup by email returns absent, the hasher returns the digest `d`
without error and `CreateUser` succeeds, `RegisterUser` returns nil after calling
`CreateUser` exactly once, with the record whose `Name`, `Surname` and
`EmailAddress` are those of the options, whose `Password` is `d` and whose other
field (`ID`) is zero; if the hasher fails, `CreateUser` is not called, the store is
unchanged and the hasher error is returned wrapped. -/
theorem RegisterUser_creates_record {σ : Type} (s : userService σ) (w : World σ)
    (opts : RegisterUserOptions)
    (hget : s.storages.GetUser w.store { ID := none, EmailAddress := some opts.EmailAddress }
      = .ok none) :
    (∀ d created store, s.passwordHasher.GenerateHashFromPassword opts.Password = (d, none) →
      s.storages.CreateUser w.store
        { ID := "", Name := opts.Name, Surname := opts.Surname,
          EmailAddress := opts.EmailAddress, Password := d } = (.ok created, store) →
      (RegisterUser s w opts).1 = none ∧
      w.newCalls (RegisterUser s w opts).2
        = [.GetUser { ID := none, EmailAddress := some opts.EmailAddress },
            .GenerateHashFromPassword opts.Password,
            .CreateUser
              { ID := "", Name := opts.Name, Surname := opts.Surname,
                EmailAddress := opts.EmailAddress, Password := d }] ∧
      ((w.newCalls (RegisterUser s w opts).2).filter Call.isCreateUser).length = 1 ∧
      (RegisterUser s w opts).2.store = store) ∧
    (∀ d err, s.passwordHasher.GenerateHashFromPassword opts.Password = (d, some err) →
      (RegisterUser s w opts).1 = some (.wrapped "failed to hash password" err) ∧
      (∀ c ∈ w.newCalls (RegisterUser s w opts).2, c.isCreateUser = false) ∧
      (RegisterUser s w opts).2.store = w.store) := by
  constructor
  · intro d created store hhash hcreate
    have hc : w.newCalls (RegisterUser s w opts).2
        = [.GetUser { ID := none, EmailAddress := some opts.EmailAddress },
            .GenerateHashFromPassword opts.Password,
            .CreateUser
              { ID := "", Name := opts.Name, Surname := opts.Surname,
                EmailAddress := opts.EmailAddress, Password := d }] := by
      apply World.newCalls_of_calls
      simp only [RegisterUser, World.call_store, hget, hhash, hcreate]
      simp
    refine ⟨?_, hc, ?_, ?_⟩
    · simp only [RegisterUser, World.call_store, hget, hhash, hcreate]
    · rw [hc]; rfl
    · simp only [RegisterUser, World.call_store, hget, hhash, hcreate]
      simp
  · intro d err hhash
    have hc : w.newCalls (RegisterUser s w opts).2
        = [.GetUser { ID := none, EmailAddress := some opts.EmailAddress },
            .GenerateHashFromPassword opts.Password] := by
      apply World.newCalls_of_calls
      simp only [RegisterUser, World.call_store, hget, hhash]
      simp
    refine ⟨?_, ?_, ?_⟩
    · simp only [RegisterUser, World.call_store, hget, hhash]
    · rw [hc]
      intro c hcm
      simp only [List.mem_cons, List.not_mem_nil, or_false] at hcm
      rcases hcm with hcm | hcm <;> subst hcm <;> rfl
    · simp only [RegisterUser, World.call_store, hget, hhash]
      simp

theorem RegisterUser_creates_record_witness :
    (RegisterUser listService (World.init []) bobOpts).1 = none ∧
    (RegisterUser listService (World.init []) bobOpts).2.store
      = [{ ID := "1", Name := "Bob", Surname := "Roe", EmailAddress := "b@x.com",
           Password := "$2a$14$pw1" }] ∧
    (RegisterUser listService (World.init [])
        { Name := "Bob", Surname := "Roe", Phone := "", EmailAddress := "b@x.com",
          Password := longPassword }).1
      = some (.wrapped "failed to hash password"
          (.wrapped "failed to hash password" ErrPasswordTooLong)) :=
  ⟨((RegisterUser_creates_record listService (World.init []) bobOpts rfl).1 "$2a$14$pw1"
      (some { ID := "1", Name := "Bob", Surname := "Roe", EmailAddress := "b@x.com",
              Password := "$2a$14$pw1" })
      [{ ID := "1", Name := "Bob", Surname := "Roe", EmailAddress := "b@x.com",
         Password := "$2a$14$pw1" }] rfl rfl).1,
   ((RegisterUser_creates_record listService (World.init []) bobOpts rfl).1 "$2a$14$pw1"
      (some { ID := "1", Name := "Bob", Surname := "Roe", EmailAddress := "b@x.com",
              Password := "$2a$14$pw1" })
      [{ ID := "1", Name := "Bob", Surname := "Roe", EmailAddress := "b@x.com",
         Password := "$2a$14$pw1" }] rfl rfl).2.2.2,
   ((RegisterUser_creates_record listService (World.init [])
      { Name := "Bob", Surname := "Roe", Phone := "", EmailAddress := "b@x.com",
        Password := longPassword } rfl).2 ""
      (.wrapped "failed to hash password" ErrPasswordTooLong) rfl).1⟩

/-- C14: when the lookup by email returns the account `u`, the comparison of
`u.Password` with `opts.Password` returns `(true, nil)` and `GenerateUserToken(u)`
returns the pair `p`, `LoginUser` returns no error and the output whose
`AccessToken` and `RefreshToken` are those of `p` and whose `UserID` is `u.ID`. -/
theorem LoginUser_success {σ : Type} (s : userService σ) (w : World σ) (opts : LoginUserOptions)
    (u : User) (p : UserTokenOutput)
    (hget : s.storages.GetUser w.store { ID := none, EmailAddress := some opts.EmailAddress }
      = .ok (some u))
    (hcmp : s.passwordHasher.CompareHashAndPassword
      { Hashed := u.Password, Password := opts.Password } = (true, none))
    (hgen : (GenerateUserToken s (loginWorld s w opts u) u).1 = .ok p) :
    (LoginUser s w opts).1
      = ({ AccessToken := p.AccessToken, RefreshToken := p.RefreshToken, UserID := u.ID }, none) := by
  unfold loginWorld at hgen
  rcases hg : GenerateUserToken s
    (((w.call (.GetUser { ID := none, EmailAddress := some opts.EmailAddress })).emit
      ((((s.logger.Named "LoginUser").WithContext).With "opts" (.loginOpts opts)).entry
        .Debug "got user" [("user", .user (some u))])).call
      (.CompareHashAndPassword { Hashed := u.Password, Password := opts.Password })) u
    with ⟨r, v⟩
  rw [hg] at hgen
  simp only at hgen
  subst hgen
  simp only [LoginUser, World.call_store, hget, hcmp, hg]

theorem LoginUser_success_witness :
    (LoginUser listService (World.init [alice]) { EmailAddress := "a@x.com", Password := "pw1" }).1
      = ({ AccessToken := "jwt.1", RefreshToken := "jwt.1", UserID := "1" }, none) :=
  LoginUser_success listService (World.init [alice]) { EmailAddress := "a@x.com", Password := "pw1" }
    alice { AccessToken := "jwt.1", RefreshToken := "jwt.1" } rfl rfl rfl

/-! ## The store under login, verification and refresh -/

theorem GenerateUserToken_frame {σ : Type} (ts : userService σ) (w : World σ) (user : User) :
    (GenerateUserToken ts w user).2.store = w.store ∧
    ∃ cs, (GenerateUserToken ts w user).2.calls = w.calls ++ cs ∧
      ∀ c ∈ cs, c.isStoreWrite = false := by
  refine ⟨(GenerateUserToken_run ts w user).1, ?_⟩
  simp only [GenerateUserToken]
  split
  · exact ⟨_, by simp only [World.call, World.emit, List.append_assoc]; rfl,
        by simp [Call.isStoreWrite]⟩
  · split
    · exact ⟨_, by simp only [World.call, World.emit, List.append_assoc]; rfl,
        by simp [Call.isStoreWrite]⟩
    · exact ⟨_, by simp only [World.call, World.emit, List.append_assoc]; rfl,
        by simp [Call.isStoreWrite]⟩

theorem VerifyUserToken_frame {σ : Type} (s : userService σ) (w : World σ) (tokenStr : String) :
    (VerifyUserToken s w tokenStr).2.store = w.store ∧
    ∃ cs, (VerifyUserToken s w tokenStr).2.calls = w.calls ++ cs ∧
      ∀ c ∈ cs, c.isStoreWrite = false := by
  simp only [VerifyUserToken]
  split
  · exact ⟨rfl, _, by simp only [World.call, World.emit, List.append_assoc]; rfl,
        by simp [Call.isStoreWrite]⟩
  · split
    · exact ⟨rfl, _, by simp only [World.call, World.emit, List.append_assoc]; rfl,
        by simp [Call.isStoreWrite]⟩
    · split
      · exact ⟨rfl, _, by simp only [World.call, World.emit, List.append_assoc]; rfl,
        by simp [Call.isStoreWrite]⟩
      · exact ⟨rfl, _, by simp only [World.call, World.emit, List.append_assoc]; rfl,
        by simp [Call.isStoreWrite]⟩
      · exact ⟨rfl, _, by simp only [World.call, World.emit, List.append_assoc]; rfl,
        by simp [Call.isStoreWrite]⟩

theorem LoginUser_frame {σ : Type} (s : userService σ) (w : World σ) (opts : LoginUserOptions) :
    (LoginUser s w opts).2.store = w.store ∧
    ∃ cs, (LoginUser s w opts).2.calls = w.calls ++ cs ∧ ∀ c ∈ cs, c.isStoreWrite = false := by
  simp only [LoginUser, World.call_store]
  split
  · exact ⟨rfl, _, by simp only [World.call, World.emit, List.append_assoc]; rfl,
        by simp [Call.isStoreWrite]⟩
  · exact ⟨rfl, _, by simp only [World.call, World.emit, List.append_assoc]; rfl,
        by simp [Call.isStoreWrite]⟩
  · rename_i user _
    split
    · exact ⟨rfl, _, by simp only [World.call, World.emit, List.append_assoc]; rfl,
        by simp [Call.isStoreWrite]⟩
    · exact ⟨rfl, _, by simp only [World.call, World.emit, List.append_assoc]; rfl,
        by simp [Call.isStoreWrite]⟩
    · generalize hW : World.call _ _ = W
      have hWs : W.store = w.store := by rw [← hW]; rfl
      have hWc : W.calls = w.calls ++ [.GetUser { ID := none, EmailAddress := some opts.EmailAddress },
          .CompareHashAndPassword { Hashed := user.Password, Password := opts.Password }] := by
        rw [← hW]; simp
      obtain ⟨hst, cs, hcs, hall⟩ := GenerateUserToken_frame s W user
      rcases hg : GenerateUserToken s W user with ⟨r, v⟩
      rw [hg] at hst hcs
      simp only at hst hcs
      cases r with
      | error err =>
        refine ⟨by simp [hst, hWs],
          .GetUser { ID := none, EmailAddress := some opts.EmailAddress } ::
            .CompareHashAndPassword { Hashed := user.Password, Password := opts.Password } :: cs,
          by simp [hcs, hWc], ?_⟩
        intro c hc
        simp only [List.mem_cons] at hc
        rcases hc with hc | hc | hc
        · subst hc; rfl
        · subst hc; rfl
        · exact hall c hc
      | ok tokens =>
        refine ⟨by simp [hst, hWs],
          .GetUser { ID := none, EmailAddress := some opts.EmailAddress } ::
            .CompareHashAndPassword { Hashed := user.Password, Password := opts.Password } :: cs,
          by simp [hcs, hWc], ?_⟩
        intro c hc
        simp only [List.mem_cons] at hc
        rcases hc with hc | hc | hc
        · subst hc; rfl
        · subst hc; rfl
        · exact hall c hc

theorem RefreshUserToken_frame {σ : Type} (s : userService σ) (w : World σ) (refreshToken : String) :
    (RefreshUserToken s w refreshToken).2.store = w.store ∧
    ∃ cs, (RefreshUserToken s w refreshToken).2.calls = w.calls ++ cs ∧
      ∀ c ∈ cs, c.isStoreWrite = false := by
  obtain ⟨hvs, cs1, hvc, hall1⟩ := VerifyUserToken_frame s w refreshToken
  simp only [RefreshUserToken]
  rcases hv : VerifyUserToken s w refreshToken with ⟨r1, v1⟩
  rw [hv] at hvs hvc
  simp only at hvs hvc
  cases r1 with
  | error err =>
    simp only
    refine ⟨?_, cs1, ?_, hall1⟩
    · split <;> split <;> try split
      all_goals simp [hvs]
    · split <;> split <;> try split
      all_goals simp [hvc]
  | ok user =>
    simp only
    generalize hW : World.emit v1 _ = W
    have hWs : W.store = w.store := by rw [← hW]; simpa using hvs
    have hWc : W.calls = w.calls ++ cs1 := by rw [← hW]; simpa using hvc
    obtain ⟨hst, cs, hcs, hall⟩ := GenerateUserToken_frame s W user
    rcases hg : GenerateUserToken s W user with ⟨r, v⟩
    rw [hg] at hst hcs
    simp only at hst hcs
    have hmem : ∀ c ∈ cs1 ++ cs, c.isStoreWrite = false := by
      intro c hc
      rcases List.mem_append.mp hc with hc | hc
      · exact hall1 c hc
      · exact hall c hc
    cases r with
    | error err => exact ⟨by simp [hst, hWs], cs1 ++ cs, by simp [hcs, hWc], hmem⟩
    | ok tokens => exact ⟨by simp [hst, hWs], cs1 ++ cs, by simp [hcs, hWc], hmem⟩

/-- C15: `LoginUser`, `VerifyUserToken` and `RefreshUserToken` leave the store as they
found it, on success and on failure alike, and none of the calls they make is
`CreateUser`, `UpdateUser` or `DeleteUser`: the lookup `GetUser`, which returns no
new store, is the only store operation among them. -/
theorem LoginUser_VerifyUserToken_RefreshUserToken_frame {σ : Type} (s : userService σ)
    (w : World σ) :
    (∀ opts, (LoginUser s w opts).2.store = w.store ∧
      ∀ c ∈ w.newCalls (LoginUser s w opts).2, c.isStoreWrite = false) ∧
    (∀ tokenStr, (VerifyUserToken s w tokenStr).2.store = w.store ∧
      ∀ c ∈ w.newCalls (VerifyUserToken s w tokenStr).2, c.isStoreWrite = false) ∧
    (∀ refreshToken, (RefreshUserToken s w refreshToken).2.store = w.store ∧
      ∀ c ∈ w.newCalls (RefreshUserToken s w refreshToken).2, c.isStoreWrite = false) ∧
    (∀ id user, Call.isStoreWrite (.CreateUser user) = true ∧
      Call.isStoreWrite (.UpdateUser id user) = true ∧ Call.isStoreWrite (.DeleteUser id) = true) := by
  refine ⟨?_, ?_, ?_, fun _ _ => ⟨rfl, rfl, rfl⟩⟩
  · intro opts
    obtain ⟨hst, cs, hcs, hall⟩ := LoginUser_frame s w opts
    rw [World.newCalls_of_calls _ _ cs hcs]
    exact ⟨hst, hall⟩
  · intro tokenStr
    obtain ⟨hst, cs, hcs, hall⟩ := VerifyUserToken_frame s w tokenStr
    rw [World.newCalls_of_calls _ _ cs hcs]
    exact ⟨hst, hall⟩
  · intro refreshToken
    obtain ⟨hst, cs, hcs, hall⟩ := RefreshUserToken_frame s w refreshToken
    rw [World.newCalls_of_calls _ _ cs hcs]
    exact ⟨hst, hall⟩

end SolidSoftware
